import Mathlib

/-!
# Route 53 Recovery Control Config: control panel and routing control resources

A shallow embedding of the two resource handlers

* `aws/resource_aws_route53recoverycontrolconfig_control_panel.go`
* `aws/resource_aws_route53recoverycontrolconfig_routing_control.go`

Each Go handler `func(d *schema.ResourceData, meta interface{}) error` becomes a
function from the resource data `d`, the client `meta` and the history of calls
made to the remote so far, to an `Outcome`: the returned error value, the
resource data after the handler ran, and the extended history.

The remote service and the waiter package are collaborators.  Their replies are
arbitrary functions of the call history and of the request, so every
deterministic mock of the service is an instance of `Route53RecoveryControlConfig`
and `Waiter`.
-/

namespace Aws

/-! ## Values shared by both resources -/

/-- Go `error` values handed back by the service client and by the waiters, as far
as the handlers tell them apart: an `awserr.Error` with its code and message, a
`*resource.NotFoundError`, or any other error. -/
inductive Err where
  | awsErr (code : String) (message : String)
  | notFoundError (message : String)
  | other (message : String)
  deriving DecidableEq, Repr

/-- What a handler hands back to its caller: `nil`, an error built by
`fmt.Errorf(format, [id,] [cause])`, or the run-time failure of reading a field
through a nil pointer. -/
inductive Result where
  | nil
  | errorf (format : String) (id : Option String) (cause : Option Err)
  | nilPointerDereference
  deriving DecidableEq, Repr

/-- The handler returned a non-nil error. -/
def Result.isError : Result → Bool
  | .errorf _ _ _ => true
  | _ => false

/-- Go `aws.String`: a pointer to the given string. -/
def aws_String (v : String) : Option String := some v

/-- Go `aws.StringValue`: the string pointed to, or the empty string for a nil pointer. -/
def aws_StringValue (v : Option String) : String :=
  match v with
  | some s => s
  | none => ""

/-- Go `d.Set` on a `TypeString` attribute with a `*string`: a nil pointer stores the
zero value. -/
def setString (v : Option String) : String :=
  match v with
  | some s => s
  | none => ""

/-- Go `d.Set` on a `TypeBool` attribute with a `*bool`: a nil pointer stores the
zero value. -/
def setBool (v : Option Bool) : Bool :=
  match v with
  | some b => b
  | none => false

/-- Go `d.Set` on a `TypeInt` attribute with a `*int64`: a nil pointer stores the
zero value. -/
def setInt (v : Option Int) : Int :=
  match v with
  | some n => n
  | none => 0

/-- Go `d.GetOk` on a `TypeString` attribute: the value, and whether it differs from
the zero value. -/
def getOkString (v : String) : String × Bool := (v, v != "")

/-- Go `route53recoverycontrolconfig.ErrCodeResourceNotFoundException`. -/
def ErrCodeResourceNotFoundException : String := "ResourceNotFoundException"

/-- Modelled from the spec: the helper `isAWSErr` is declared outside the two
source files.  It holds of an `awserr.Error` whose code is the given one and whose
message contains the given text (the spec's "not found" response of the delete
call). -/
def isAWSErr (err : Err) (code : String) (message : String) : Bool :=
  match err with
  | .awsErr c m => c == code && decide (message.data <:+: m.data)
  | _ => false

/-- Modelled from the spec: the helper `isResourceNotFoundError` is declared
outside the two source files.  It holds of a `*resource.NotFoundError` (the spec's
"not found" error during the deletion wait). -/
def isResourceNotFoundError (err : Err) : Bool :=
  match err with
  | .notFoundError _ => true
  | _ => false

/-! ## Request and response shapes of the service -/

/-- Go `route53recoverycontrolconfig.ControlPanel`. -/
structure ControlPanel where
  ClusterArn : Option String
  ControlPanelArn : Option String
  DefaultControlPanel : Option Bool
  Name : Option String
  RoutingControlCount : Option Int
  Status : Option String
  deriving DecidableEq, Repr

/-- Go `route53recoverycontrolconfig.RoutingControl`, with the fields the handlers
read. -/
structure RoutingControl where
  ControlPanelArn : Option String
  Name : Option String
  RoutingControlArn : Option String
  Status : Option String
  deriving DecidableEq, Repr

structure CreateControlPanelInput where
  ClientToken : Option String := none
  ClusterArn : Option String := none
  ControlPanelName : Option String := none
  deriving DecidableEq, Repr

structure CreateControlPanelOutput where
  ControlPanel : Option ControlPanel
  deriving DecidableEq, Repr

structure DescribeControlPanelInput where
  ControlPanelArn : Option String := none
  deriving DecidableEq, Repr

structure DescribeControlPanelOutput where
  ControlPanel : Option ControlPanel
  deriving DecidableEq, Repr

structure UpdateControlPanelInput where
  ControlPanelArn : Option String := none
  ControlPanelName : Option String := none
  deriving DecidableEq, Repr

structure UpdateControlPanelOutput where
  ControlPanel : Option ControlPanel
  deriving DecidableEq, Repr

structure DeleteControlPanelInput where
  ControlPanelArn : Option String := none
  deriving DecidableEq, Repr

structure DeleteControlPanelOutput where
  deriving DecidableEq, Repr

structure CreateRoutingControlInput where
  ClientToken : Option String := none
  ClusterArn : Option String := none
  ControlPanelArn : Option String := none
  RoutingControlName : Option String := none
  deriving DecidableEq, Repr

structure CreateRoutingControlOutput where
  RoutingControl : Option RoutingControl
  deriving DecidableEq, Repr

structure DescribeRoutingControlInput where
  RoutingControlArn : Option String := none
  deriving DecidableEq, Repr

structure DescribeRoutingControlOutput where
  RoutingControl : Option RoutingControl
  deriving DecidableEq, Repr

structure UpdateRoutingControlInput where
  RoutingControlArn : Option String := none
  RoutingControlName : Option String := none
  deriving DecidableEq, Repr

structure UpdateRoutingControlOutput where
  RoutingControl : Option RoutingControl
  deriving DecidableEq, Repr

structure DeleteRoutingControlInput where
  RoutingControlArn : Option String := none
  deriving DecidableEq, Repr

structure DeleteRoutingControlOutput where
  deriving DecidableEq, Repr

/-- One call made by a handler to a collaborator: a service operation with its
request, or a waiter with the identifier it was given. -/
inductive Call where
  | CreateControlPanel (input : CreateControlPanelInput)
  | DescribeControlPanel (input : DescribeControlPanelInput)
  | UpdateControlPanel (input : UpdateControlPanelInput)
  | DeleteControlPanel (input : DeleteControlPanelInput)
  | ControlPanelCreated (id : String)
  | ControlPanelDeleted (id : String)
  | CreateRoutingControl (input : CreateRoutingControlInput)
  | DescribeRoutingControl (input : DescribeRoutingControlInput)
  | UpdateRoutingControl (input : UpdateRoutingControlInput)
  | DeleteRoutingControl (input : DeleteRoutingControlInput)
  | RoutingControlCreated (id : String)
  | RoutingControlDeleted (id : String)
  deriving DecidableEq, Repr

/-- The service client `*route53recoverycontrolconfig.Route53RecoveryControlConfig`.
Every operation answers with an output value (the client never hands back a nil
output pointer) and an optional error; the answer may depend on the calls made
before. -/
structure Route53RecoveryControlConfig where
  CreateControlPanel : List Call → CreateControlPanelInput → CreateControlPanelOutput × Option Err
  DescribeControlPanel : List Call → DescribeControlPanelInput → DescribeControlPanelOutput × Option Err
  UpdateControlPanel : List Call → UpdateControlPanelInput → UpdateControlPanelOutput × Option Err
  DeleteControlPanel : List Call → DeleteControlPanelInput → DeleteControlPanelOutput × Option Err
  CreateRoutingControl : List Call → CreateRoutingControlInput → CreateRoutingControlOutput × Option Err
  DescribeRoutingControl : List Call → DescribeRoutingControlInput → DescribeRoutingControlOutput × Option Err
  UpdateRoutingControl : List Call → UpdateRoutingControlInput → UpdateRoutingControlOutput × Option Err
  DeleteRoutingControl : List Call → DeleteRoutingControlInput → DeleteRoutingControlOutput × Option Err

/-- The waiter package: each waiter blocks on the connection for the given
identifier and answers with an optional error (its first result is discarded by
every handler). -/
structure Waiter where
  Route53RecoveryControlConfigControlPanelCreated :
    Route53RecoveryControlConfig → List Call → String → Option Err
  Route53RecoveryControlConfigControlPanelDeleted :
    Route53RecoveryControlConfig → List Call → String → Option Err
  Route53RecoveryControlConfigRoutingControlCreated :
    Route53RecoveryControlConfig → List Call → String → Option Err
  Route53RecoveryControlConfigRoutingControlDeleted :
    Route53RecoveryControlConfig → List Call → String → Option Err

/-- The provider client `*AWSClient`, with the connection the handlers use. -/
structure AWSClient where
  route53recoverycontrolconfigconn : Route53RecoveryControlConfig

/-- The result of running a handler on resource data of type `δ`: the returned
error value, the resource data as the handler left it, and the calls made so far. -/
structure Outcome (δ : Type) where
  err : Result
  d : δ
  log : List Call

/-! ## Control panel -/

/-- The `*schema.ResourceData` of a control panel: the stored identifier, the
new-resource mark, and one value per attribute of the schema. -/
structure ControlPanelResourceData where
  id : String
  isNew : Bool
  control_panel_arn : String
  cluster_arn : String
  default_control_panel : Bool
  routing_control_count : Int
  name : String
  status : String
  deriving DecidableEq, Repr

/-- Go `d.Id()`: the stored identifier. -/
def ControlPanelResourceData.Id (d : ControlPanelResourceData) : String := d.id

/-- Go `d.SetId(v)`: stores `v` as the identifier. -/
def ControlPanelResourceData.SetId (d : ControlPanelResourceData) (v : String) :
    ControlPanelResourceData :=
  { d with id := v }

/-- Go `d.IsNewResource()`: whether the resource is being created in this run. -/
def ControlPanelResourceData.IsNewResource (d : ControlPanelResourceData) : Bool := d.isNew

/-- Go `resourceAwsRoute53RecoveryControlConfigControlPanelRead`
(`resource_aws_route53recoverycontrolconfig_control_panel.go`, lines 81-109).  Past
the guard of line 95 the fields of `result` are read: with a nil `result` that is a
nil pointer dereference. -/
def resourceAwsRoute53RecoveryControlConfigControlPanelRead
    (d : ControlPanelResourceData) (meta : AWSClient) (log : List Call) :
    Outcome ControlPanelResourceData :=
  let conn := meta.route53recoverycontrolconfigconn
  let input : DescribeControlPanelInput := { ControlPanelArn := aws_String d.Id }
  let (output, err) := conn.DescribeControlPanel log input
  let log := log ++ [Call.DescribeControlPanel input]
  let result := output.ControlPanel
  match err with
  | some err =>
    ⟨.errorf "Error describing Route53 Recovery Control Config Control Panel: %s" none (some err),
      d, log⟩
  | none =>
    if !d.IsNewResource && result.isNone then
      ⟨.nil, d.SetId "", log⟩
    else
      match result with
      | none => ⟨.nilPointerDereference, d, log⟩
      | some result =>
        let d := { d with control_panel_arn := setString result.ControlPanelArn }
        let d := { d with cluster_arn := setString result.ClusterArn }
        let d := { d with default_control_panel := setBool result.DefaultControlPanel }
        let d := { d with routing_control_count := setInt result.RoutingControlCount }
        let d := { d with name := setString result.Name }
        let d := { d with status := setString result.Status }
        ⟨.nil, d, log⟩

/-- Go `resourceAwsRoute53RecoveryControlConfigControlPanelCreate` (lines 52-79);
`uniqueId` is the value `resource.UniqueId()` generates for this call. -/
def resourceAwsRoute53RecoveryControlConfigControlPanelCreate
    (waiter : Waiter) (uniqueId : String)
    (d : ControlPanelResourceData) (meta : AWSClient) (log : List Call) :
    Outcome ControlPanelResourceData :=
  let conn := meta.route53recoverycontrolconfigconn
  let input : CreateControlPanelInput :=
    { ClientToken := aws_String uniqueId
      ClusterArn := aws_String d.cluster_arn
      ControlPanelName := aws_String d.name }
  let (output, err) := conn.CreateControlPanel log input
  let log := log ++ [Call.CreateControlPanel input]
  let result := output.ControlPanel
  match err with
  | some err =>
    ⟨.errorf "Error creating Route53 Recovery Control Config Control Panel: %w" none (some err),
      d, log⟩
  | none =>
    match result with
    | none =>
      ⟨.errorf "Error creating Route53 Recovery Control Config Control Panel empty response"
        none none, d, log⟩
    | some result =>
      let d := d.SetId (aws_StringValue result.ControlPanelArn)
      match waiter.Route53RecoveryControlConfigControlPanelCreated conn log d.Id with
      | some err =>
        ⟨.errorf
          "Error waiting for Route53 Recovery Control Config Control Panel (%s) to be Deployed: %w"
          (some d.Id) (some err), d, log ++ [Call.ControlPanelCreated d.Id]⟩
      | none =>
        resourceAwsRoute53RecoveryControlConfigControlPanelRead d meta
          (log ++ [Call.ControlPanelCreated d.Id])

/-- Go `resourceAwsRoute53RecoveryControlConfigControlPanelUpdate` (lines 111-125). -/
def resourceAwsRoute53RecoveryControlConfigControlPanelUpdate
    (d : ControlPanelResourceData) (meta : AWSClient) (log : List Call) :
    Outcome ControlPanelResourceData :=
  let conn := meta.route53recoverycontrolconfigconn
  let input : UpdateControlPanelInput :=
    { ControlPanelName := aws_String d.name
      ControlPanelArn := aws_String d.control_panel_arn }
  let (_, err) := conn.UpdateControlPanel log input
  let log := log ++ [Call.UpdateControlPanel input]
  match err with
  | some err =>
    ⟨.errorf "error updating Route53 Recovery Control Config Control Panel: %s" none (some err),
      d, log⟩
  | none => resourceAwsRoute53RecoveryControlConfigControlPanelRead d meta log

/-- Go `resourceAwsRoute53RecoveryControlConfigControlPanelDelete` (lines 127-151). -/
def resourceAwsRoute53RecoveryControlConfigControlPanelDelete
    (waiter : Waiter) (d : ControlPanelResourceData) (meta : AWSClient) (log : List Call) :
    Outcome ControlPanelResourceData :=
  let conn := meta.route53recoverycontrolconfigconn
  let input : DeleteControlPanelInput := { ControlPanelArn := aws_String d.Id }
  let (_, err) := conn.DeleteControlPanel log input
  let log := log ++ [Call.DeleteControlPanel input]
  match err with
  | some err =>
    if isAWSErr err ErrCodeResourceNotFoundException "" then
      ⟨.nil, d, log⟩
    else
      ⟨.errorf "error deleting Route53 Recovery Control Config Control Panel: %s" none (some err),
        d, log⟩
  | none =>
    match waiter.Route53RecoveryControlConfigControlPanelDeleted conn log d.Id with
    | some err =>
      if isResourceNotFoundError err then
        ⟨.nil, d, log ++ [Call.ControlPanelDeleted d.Id]⟩
      else
        ⟨.errorf
          "Error waiting for Route53 Recovery Control Config Control Panel (%s) to be deleted: %w"
          (some d.Id) (some err), d, log ++ [Call.ControlPanelDeleted d.Id]⟩
    | none => ⟨.nil, d, log ++ [Call.ControlPanelDeleted d.Id]⟩

/-! ## Routing control -/

/-- The `*schema.ResourceData` of a routing control: the stored identifier, the
new-resource mark, and one value per attribute of the schema. -/
structure RoutingControlResourceData where
  id : String
  isNew : Bool
  routing_control_arn : String
  cluster_arn : String
  control_panel_arn : String
  name : String
  status : String
  deriving DecidableEq, Repr

/-- Go `d.Id()`: the stored identifier. -/
def RoutingControlResourceData.Id (d : RoutingControlResourceData) : String := d.id

/-- Go `d.SetId(v)`: stores `v` as the identifier. -/
def RoutingControlResourceData.SetId (d : RoutingControlResourceData) (v : String) :
    RoutingControlResourceData :=
  { d with id := v }

/-- Go `d.IsNewResource()`: whether the resource is being created in this run. -/
def RoutingControlResourceData.IsNewResource (d : RoutingControlResourceData) : Bool := d.isNew

/-- Go `resourceAwsRoute53RecoveryControlConfigRoutingControlRead`
(`resource_aws_route53recoverycontrolconfig_routing_control.go`, lines 81-107).  Past
the guard of line 95 the fields of `result` are read: with a nil `result` that is a
nil pointer dereference. -/
def resourceAwsRoute53RecoveryControlConfigRoutingControlRead
    (d : RoutingControlResourceData) (meta : AWSClient) (log : List Call) :
    Outcome RoutingControlResourceData :=
  let conn := meta.route53recoverycontrolconfigconn
  let input : DescribeRoutingControlInput := { RoutingControlArn := aws_String d.Id }
  let (output, err) := conn.DescribeRoutingControl log input
  let log := log ++ [Call.DescribeRoutingControl input]
  let result := output.RoutingControl
  match err with
  | some err =>
    ⟨.errorf "Error describing Route53 Recovery Control Config Routing Control: %s" none (some err),
      d, log⟩
  | none =>
    if !d.IsNewResource && result.isNone then
      ⟨.nil, d.SetId "", log⟩
    else
      match result with
      | none => ⟨.nilPointerDereference, d, log⟩
      | some result =>
        let d := { d with routing_control_arn := setString result.RoutingControlArn }
        let d := { d with control_panel_arn := setString result.ControlPanelArn }
        let d := { d with name := setString result.Name }
        let d := { d with status := setString result.Status }
        ⟨.nil, d, log⟩

/-- Go `resourceAwsRoute53RecoveryControlConfigRoutingControlCreate` (lines 48-79);
`uniqueId` is the value `resource.UniqueId()` generates for this call. -/
def resourceAwsRoute53RecoveryControlConfigRoutingControlCreate
    (waiter : Waiter) (uniqueId : String)
    (d : RoutingControlResourceData) (meta : AWSClient) (log : List Call) :
    Outcome RoutingControlResourceData :=
  let conn := meta.route53recoverycontrolconfigconn
  let input : CreateRoutingControlInput :=
    { ClientToken := aws_String uniqueId
      ClusterArn := aws_String d.cluster_arn
      RoutingControlName := aws_String d.name }
  let input :=
    match getOkString d.control_panel_arn with
    | (v, true) => { input with ControlPanelArn := aws_String v }
    | (_, false) => input
  let (output, err) := conn.CreateRoutingControl log input
  let log := log ++ [Call.CreateRoutingControl input]
  let result := output.RoutingControl
  match err with
  | some err =>
    ⟨.errorf "Error creating Route53 Recovery Control Config Routing Control: %w" none (some err),
      d, log⟩
  | none =>
    match result with
    | none =>
      ⟨.errorf "Error creating Route53 Recovery Control Config Routing Control empty response"
        none none, d, log⟩
    | some result =>
      let d := d.SetId (aws_StringValue result.RoutingControlArn)
      match waiter.Route53RecoveryControlConfigRoutingControlCreated conn log d.Id with
      | some err =>
        ⟨.errorf
          "Error waiting for Route53 Recovery Control Config Routing Control (%s) to be Deployed: %w"
          (some d.Id) (some err), d, log ++ [Call.RoutingControlCreated d.Id]⟩
      | none =>
        resourceAwsRoute53RecoveryControlConfigRoutingControlRead d meta
          (log ++ [Call.RoutingControlCreated d.Id])

/-- Go `resourceAwsRoute53RecoveryControlConfigRoutingControlUpdate` (lines 109-123). -/
def resourceAwsRoute53RecoveryControlConfigRoutingControlUpdate
    (d : RoutingControlResourceData) (meta : AWSClient) (log : List Call) :
    Outcome RoutingControlResourceData :=
  let conn := meta.route53recoverycontrolconfigconn
  let input : UpdateRoutingControlInput :=
    { RoutingControlName := aws_String d.name
      RoutingControlArn := aws_String d.routing_control_arn }
  let (_, err) := conn.UpdateRoutingControl log input
  let log := log ++ [Call.UpdateRoutingControl input]
  match err with
  | some err =>
    ⟨.errorf "error updating Route53 Recovery Control Config Routing Control: %s" none (some err),
      d, log⟩
  | none => resourceAwsRoute53RecoveryControlConfigRoutingControlRead d meta log

/-- Go `resourceAwsRoute53RecoveryControlConfigRoutingControlDelete` (lines 125-149). -/
def resourceAwsRoute53RecoveryControlConfigRoutingControlDelete
    (waiter : Waiter) (d : RoutingControlResourceData) (meta : AWSClient) (log : List Call) :
    Outcome RoutingControlResourceData :=
  let conn := meta.route53recoverycontrolconfigconn
  let input : DeleteRoutingControlInput := { RoutingControlArn := aws_String d.Id }
  let (_, err) := conn.DeleteRoutingControl log input
  let log := log ++ [Call.DeleteRoutingControl input]
  match err with
  | some err =>
    if isAWSErr err ErrCodeResourceNotFoundException "" then
      ⟨.nil, d, log⟩
    else
      ⟨.errorf "error deleting Route53 Recovery Control Config Routing Control: %s" none (some err),
        d, log⟩
  | none =>
    match waiter.Route53RecoveryControlConfigRoutingControlDeleted conn log d.Id with
    | some err =>
      if isResourceNotFoundError err then
        ⟨.nil, d, log ++ [Call.RoutingControlDeleted d.Id]⟩
      else
        ⟨.errorf
          "Error waiting for Route53 Recovery Control Config  Routing Control (%s) to be deleted: %w"
          (some d.Id) (some err), d, log ++ [Call.RoutingControlDeleted d.Id]⟩
    | none => ⟨.nil, d, log ++ [Call.RoutingControlDeleted d.Id]⟩

/-! ## Scripted collaborators

A `Script` fixes one answer per operation and per waiter; `Script.conn` and
`Script.waiter` are the service and the waiter package that give these answers
whatever the request and the history. -/

/-- One scripted answer for every operation of the service and every waiter. -/
structure Script where
  createControlPanel : Option ControlPanel × Option Err := (none, none)
  describeControlPanel : Option ControlPanel × Option Err := (none, none)
  updateControlPanel : Option Err := none
  deleteControlPanel : Option Err := none
  controlPanelCreated : Option Err := none
  controlPanelDeleted : Option Err := none
  createRoutingControl : Option RoutingControl × Option Err := (none, none)
  describeRoutingControl : Option RoutingControl × Option Err := (none, none)
  updateRoutingControl : Option Err := none
  deleteRoutingControl : Option Err := none
  routingControlCreated : Option Err := none
  routingControlDeleted : Option Err := none

/-- The service that answers as scripted. -/
def Script.conn (s : Script) : Route53RecoveryControlConfig where
  CreateControlPanel := fun _ _ => (⟨s.createControlPanel.1⟩, s.createControlPanel.2)
  DescribeControlPanel := fun _ _ => (⟨s.describeControlPanel.1⟩, s.describeControlPanel.2)
  UpdateControlPanel := fun _ _ => (⟨none⟩, s.updateControlPanel)
  DeleteControlPanel := fun _ _ => (⟨⟩, s.deleteControlPanel)
  CreateRoutingControl := fun _ _ => (⟨s.createRoutingControl.1⟩, s.createRoutingControl.2)
  DescribeRoutingControl := fun _ _ => (⟨s.describeRoutingControl.1⟩, s.describeRoutingControl.2)
  UpdateRoutingControl := fun _ _ => (⟨none⟩, s.updateRoutingControl)
  DeleteRoutingControl := fun _ _ => (⟨⟩, s.deleteRoutingControl)

/-- The provider client around the scripted service. -/
def Script.client (s : Script) : AWSClient := ⟨s.conn⟩

/-- The waiter package that answers as scripted. -/
def Script.waiter (s : Script) : Waiter where
  Route53RecoveryControlConfigControlPanelCreated := fun _ _ _ => s.controlPanelCreated
  Route53RecoveryControlConfigControlPanelDeleted := fun _ _ _ => s.controlPanelDeleted
  Route53RecoveryControlConfigRoutingControlCreated := fun _ _ _ => s.routingControlCreated
  Route53RecoveryControlConfigRoutingControlDeleted := fun _ _ _ => s.routingControlDeleted

/-- A control panel as the service describes it once deployed. -/
def panelDeployed : ControlPanel where
  ClusterArn := some "arn:aws:cluster/1"
  ControlPanelArn := some "arn:aws:panel/1"
  DefaultControlPanel := some true
  Name := some "panel-a"
  RoutingControlCount := some 2
  Status := some "DEPLOYED"

/-- The same control panel as the create call reports it. -/
def panelPending : ControlPanel := { panelDeployed with Status := some "PENDING" }

/-- A routing control as the service describes it once deployed. -/
def routingDeployed : RoutingControl where
  ControlPanelArn := some "arn:aws:panel/1"
  Name := some "routing-a"
  RoutingControlArn := some "arn:aws:routing/1"
  Status := some "DEPLOYED"

/-- The same routing control as the create call reports it. -/
def routingPending : RoutingControl := { routingDeployed with Status := some "PENDING" }

/-- Local state of a control panel that was read before and has drifted. -/
def panelStale : ControlPanelResourceData where
  id := "arn:aws:panel/1"
  isNew := false
  control_panel_arn := "arn:aws:panel/1"
  cluster_arn := "arn:aws:cluster/0"
  default_control_panel := false
  routing_control_count := 7
  name := "panel-old"
  status := "PENDING"

/-- Local state of a control panel as configured, before it is created. -/
def panelPlanned : ControlPanelResourceData where
  id := ""
  isNew := true
  control_panel_arn := ""
  cluster_arn := "arn:aws:cluster/1"
  default_control_panel := false
  routing_control_count := 0
  name := "panel-a"
  status := ""

/-- Local state of a routing control that was read before and has drifted. -/
def routingStale : RoutingControlResourceData where
  id := "arn:aws:routing/1"
  isNew := false
  routing_control_arn := "arn:aws:routing/1"
  cluster_arn := "arn:aws:cluster/0"
  control_panel_arn := "arn:aws:panel/0"
  name := "routing-old"
  status := "PENDING"

/-- Local state of a routing control as configured, before it is created. -/
def routingPlanned : RoutingControlResourceData where
  id := ""
  isNew := true
  routing_control_arn := ""
  cluster_arn := "arn:aws:cluster/1"
  control_panel_arn := "arn:aws:panel/1"
  name := "routing-a"
  status := ""

/-- The error with which the service reports a missing resource. -/
def notFoundException : Err :=
  Err.awsErr ErrCodeResourceNotFoundException "resource does not exist"

/-- The create call fails for control panels and answers with an empty response
for routing controls. -/
def createFailsScript : Script where
  createControlPanel := (none, some (Err.other "throttled"))
  createRoutingControl := (none, none)

/-- The create call succeeds and the creation waiter times out. -/
def waiterFailsScript : Script where
  createControlPanel := (some panelPending, none)
  controlPanelCreated := some (Err.other "timeout")
  createRoutingControl := (some routingPending, none)
  routingControlCreated := some (Err.other "timeout")

/-- The create call succeeds, the creation waiter succeeds, and Describe answers
with the deployed resource. -/
def deployScript : Script where
  createControlPanel := (some panelPending, none)
  describeControlPanel := (some panelDeployed, none)
  createRoutingControl := (some routingPending, none)
  describeRoutingControl := (some routingDeployed, none)

/-- The create call and the creation waiter succeed, and Describe then answers
with neither an error nor a resource. -/
def emptyDescribeScript : Script where
  createControlPanel := (some panelPending, none)
  describeControlPanel := (none, none)
  createRoutingControl := (some routingPending, none)
  describeRoutingControl := (none, none)

/-- The update call fails. -/
def renameFailsScript : Script where
  updateControlPanel := some (Err.other "throttled")
  updateRoutingControl := some (Err.other "throttled")

/-- The delete call reports that the resource is already absent. -/
def alreadyGoneScript : Script where
  deleteControlPanel := some notFoundException
  deleteRoutingControl := some notFoundException

/-- The delete call succeeds and the deletion waiter reports not found. -/
def goneDuringWaitScript : Script where
  controlPanelDeleted := some (Err.notFoundError "resource is gone")
  routingControlDeleted := some (Err.notFoundError "resource is gone")

/-- The delete call is refused. -/
def deleteDeniedScript : Script where
  deleteControlPanel := some (Err.awsErr "AccessDeniedException" "denied")
  deleteRoutingControl := some (Err.awsErr "AccessDeniedException" "denied")

/-- The delete call succeeds and the deletion waiter times out. -/
def deleteWaitTimeoutScript : Script where
  controlPanelDeleted := some (Err.other "timeout")
  routingControlDeleted := some (Err.other "timeout")

/-! ## Read -/

/-- Control panel Read calls the service exactly once, with a Describe request for
the stored identifier. -/
theorem controlPanelRead_log
    (d : ControlPanelResourceData) (meta : AWSClient) (log : List Call) :
    (resourceAwsRoute53RecoveryControlConfigControlPanelRead d meta log).log =
      log ++ [Call.DescribeControlPanel { ControlPanelArn := some d.id }] := by
  rcases hr : meta.route53recoverycontrolconfigconn.DescribeControlPanel log
      { ControlPanelArn := some d.id } with ⟨⟨cp⟩, e⟩
  simp only [resourceAwsRoute53RecoveryControlConfigControlPanelRead, aws_String,
    ControlPanelResourceData.Id, hr]
  cases e <;> cases cp <;> cases d.IsNewResource <;> simp

/-- Routing control Read calls the service exactly once, with a Describe request
for the stored identifier. -/
theorem routingControlRead_log
    (d : RoutingControlResourceData) (meta : AWSClient) (log : List Call) :
    (resourceAwsRoute53RecoveryControlConfigRoutingControlRead d meta log).log =
      log ++ [Call.DescribeRoutingControl { RoutingControlArn := some d.id }] := by
  rcases hr : meta.route53recoverycontrolconfigconn.DescribeRoutingControl log
      { RoutingControlArn := some d.id } with ⟨⟨cp⟩, e⟩
  simp only [resourceAwsRoute53RecoveryControlConfigRoutingControlRead, aws_String,
    RoutingControlResourceData.Id, hr]
  cases e <;> cases cp <;> cases d.IsNewResource <;> simp

/-- Control panel Read after a Describe that answers without error and with a
control panel: the whole outcome. -/
theorem controlPanelRead_of_described
    (d : ControlPanelResourceData) (meta : AWSClient) (log : List Call) (r : ControlPanel)
    (h : meta.route53recoverycontrolconfigconn.DescribeControlPanel log
        { ControlPanelArn := some d.id } = ({ ControlPanel := some r }, none)) :
    resourceAwsRoute53RecoveryControlConfigControlPanelRead d meta log =
      { err := Result.nil
        d :=
          { id := d.id
            isNew := d.isNew
            control_panel_arn := r.ControlPanelArn.getD ""
            cluster_arn := r.ClusterArn.getD ""
            default_control_panel := r.DefaultControlPanel.getD false
            routing_control_count := r.RoutingControlCount.getD 0
            name := r.Name.getD ""
            status := r.Status.getD "" }
        log := log ++ [Call.DescribeControlPanel { ControlPanelArn := some d.id }] } := by
  simp only [resourceAwsRoute53RecoveryControlConfigControlPanelRead, aws_String,
    ControlPanelResourceData.Id, h]
  rcases r with ⟨_ | _, _ | _, _ | _, _ | _, _ | _, _ | _⟩ <;>
    simp [setString, setBool, setInt]

/-- Routing control Read after a Describe that answers without error and with a
routing control: the whole outcome. -/
theorem routingControlRead_of_described
    (d : RoutingControlResourceData) (meta : AWSClient) (log : List Call) (r : RoutingControl)
    (h : meta.route53recoverycontrolconfigconn.DescribeRoutingControl log
        { RoutingControlArn := some d.id } = ({ RoutingControl := some r }, none)) :
    resourceAwsRoute53RecoveryControlConfigRoutingControlRead d meta log =
      { err := Result.nil
        d :=
          { id := d.id
            isNew := d.isNew
            routing_control_arn := r.RoutingControlArn.getD ""
            cluster_arn := d.cluster_arn
            control_panel_arn := r.ControlPanelArn.getD ""
            name := r.Name.getD ""
            status := r.Status.getD "" }
        log := log ++ [Call.DescribeRoutingControl { RoutingControlArn := some d.id }] } := by
  simp only [resourceAwsRoute53RecoveryControlConfigRoutingControlRead, aws_String,
    RoutingControlResourceData.Id, h]
  rcases r with ⟨_ | _, _ | _, _ | _, _ | _⟩ <;> simp [setString]

/-- C5: control panel Read is a full replace.  When DescribeControlPanel answers
without error and with a control panel `r`, Read returns nil, leaves the
identifier unchanged, and each of the six schema attributes ends up with the value
the matching field of `r` points to (the zero value of the attribute type when the
field is a nil pointer), whatever the attribute held before. -/
theorem controlPanelRead_full_replace
    (d : ControlPanelResourceData) (meta : AWSClient) (log : List Call) (r : ControlPanel)
    (h : meta.route53recoverycontrolconfigconn.DescribeControlPanel log
        { ControlPanelArn := some d.id } = ({ ControlPanel := some r }, none)) :
    (resourceAwsRoute53RecoveryControlConfigControlPanelRead d meta log).err = Result.nil ∧
    (resourceAwsRoute53RecoveryControlConfigControlPanelRead d meta log).d.id = d.id ∧
    (resourceAwsRoute53RecoveryControlConfigControlPanelRead d meta log).d.control_panel_arn =
      r.ControlPanelArn.getD "" ∧
    (resourceAwsRoute53RecoveryControlConfigControlPanelRead d meta log).d.cluster_arn =
      r.ClusterArn.getD "" ∧
    (resourceAwsRoute53RecoveryControlConfigControlPanelRead d meta log).d.default_control_panel =
      r.DefaultControlPanel.getD false ∧
    (resourceAwsRoute53RecoveryControlConfigControlPanelRead d meta log).d.routing_control_count =
      r.RoutingControlCount.getD 0 ∧
    (resourceAwsRoute53RecoveryControlConfigControlPanelRead d meta log).d.name =
      r.Name.getD "" ∧
    (resourceAwsRoute53RecoveryControlConfigControlPanelRead d meta log).d.status =
      r.Status.getD "" := by
  rw [controlPanelRead_of_described d meta log r h]
  exact ⟨rfl, rfl, rfl, rfl, rfl, rfl, rfl, rfl⟩

/-- C5 at a drifted local state: every attribute ends up with the described value. -/
theorem controlPanelRead_full_replace_witness :
    ({ describeControlPanel := (some panelDeployed, none) } : Script).client.1.DescribeControlPanel
        [] { ControlPanelArn := some panelStale.id } =
      ({ ControlPanel := some panelDeployed }, none) ∧
    (resourceAwsRoute53RecoveryControlConfigControlPanelRead panelStale
        ({ describeControlPanel := (some panelDeployed, none) } : Script).client []).err =
      Result.nil ∧
    (resourceAwsRoute53RecoveryControlConfigControlPanelRead panelStale
        ({ describeControlPanel := (some panelDeployed, none) } : Script).client []).d.id =
      "arn:aws:panel/1" ∧
    (resourceAwsRoute53RecoveryControlConfigControlPanelRead panelStale
        ({ describeControlPanel := (some panelDeployed, none) } : Script).client
        []).d.control_panel_arn = "arn:aws:panel/1" ∧
    (resourceAwsRoute53RecoveryControlConfigControlPanelRead panelStale
        ({ describeControlPanel := (some panelDeployed, none) } : Script).client
        []).d.cluster_arn = "arn:aws:cluster/1" ∧
    (resourceAwsRoute53RecoveryControlConfigControlPanelRead panelStale
        ({ describeControlPanel := (some panelDeployed, none) } : Script).client
        []).d.default_control_panel = true ∧
    (resourceAwsRoute53RecoveryControlConfigControlPanelRead panelStale
        ({ describeControlPanel := (some panelDeployed, none) } : Script).client
        []).d.routing_control_count = 2 ∧
    (resourceAwsRoute53RecoveryControlConfigControlPanelRead panelStale
        ({ describeControlPanel := (some panelDeployed, none) } : Script).client []).d.name =
      "panel-a" ∧
    (resourceAwsRoute53RecoveryControlConfigControlPanelRead panelStale
        ({ describeControlPanel := (some panelDeployed, none) } : Script).client []).d.status =
      "DEPLOYED" :=
  ⟨rfl, controlPanelRead_full_replace panelStale
    ({ describeControlPanel := (some panelDeployed, none) } : Script).client []
    panelDeployed rfl⟩

/-- C6, as amended: when DescribeRoutingControl answers without error and with a
routing control `r`, Read returns nil, leaves the identifier unchanged, sets
routing_control_arn, control_panel_arn, name and status to the value `d.Set`
stores for the matching field of `r`, and leaves cluster_arn as it was. -/
theorem routingControlRead_replaces_described_attributes
    (d : RoutingControlResourceData) (meta : AWSClient) (log : List Call) (r : RoutingControl)
    (h : meta.route53recoverycontrolconfigconn.DescribeRoutingControl log
        { RoutingControlArn := some d.id } = ({ RoutingControl := some r }, none)) :
    (resourceAwsRoute53RecoveryControlConfigRoutingControlRead d meta log).err = Result.nil ∧
    (resourceAwsRoute53RecoveryControlConfigRoutingControlRead d meta log).d.id = d.id ∧
    (resourceAwsRoute53RecoveryControlConfigRoutingControlRead d meta log).d.routing_control_arn =
      aws_StringValue r.RoutingControlArn ∧
    (resourceAwsRoute53RecoveryControlConfigRoutingControlRead d meta log).d.control_panel_arn =
      aws_StringValue r.ControlPanelArn ∧
    (resourceAwsRoute53RecoveryControlConfigRoutingControlRead d meta log).d.name =
      aws_StringValue r.Name ∧
    (resourceAwsRoute53RecoveryControlConfigRoutingControlRead d meta log).d.status =
      aws_StringValue r.Status ∧
    (resourceAwsRoute53RecoveryControlConfigRoutingControlRead d meta log).d.cluster_arn =
      d.cluster_arn := by
  rw [routingControlRead_of_described d meta log r h]
  clear h
  rcases r with ⟨_ | _, _ | _, _ | _, _ | _⟩ <;> exact ⟨rfl, rfl, rfl, rfl, rfl, rfl, rfl⟩

/-- C6, as amended, at a drifted local state: four attributes take the described
value and cluster_arn still holds "arn:aws:cluster/0". -/
theorem routingControlRead_replaces_described_attributes_witness :
    ({ describeRoutingControl := (some routingDeployed, none) } : Script).client.1.DescribeRoutingControl
        [] { RoutingControlArn := some routingStale.id } =
      ({ RoutingControl := some routingDeployed }, none) ∧
    (resourceAwsRoute53RecoveryControlConfigRoutingControlRead routingStale
        ({ describeRoutingControl := (some routingDeployed, none) } : Script).client []).err =
      Result.nil ∧
    (resourceAwsRoute53RecoveryControlConfigRoutingControlRead routingStale
        ({ describeRoutingControl := (some routingDeployed, none) } : Script).client []).d.id =
      "arn:aws:routing/1" ∧
    (resourceAwsRoute53RecoveryControlConfigRoutingControlRead routingStale
        ({ describeRoutingControl := (some routingDeployed, none) } : Script).client
        []).d.routing_control_arn = "arn:aws:routing/1" ∧
    (resourceAwsRoute53RecoveryControlConfigRoutingControlRead routingStale
        ({ describeRoutingControl := (some routingDeployed, none) } : Script).client
        []).d.control_panel_arn = "arn:aws:panel/1" ∧
    (resourceAwsRoute53RecoveryControlConfigRoutingControlRead routingStale
        ({ describeRoutingControl := (some routingDeployed, none) } : Script).client []).d.name =
      "routing-a" ∧
    (resourceAwsRoute53RecoveryControlConfigRoutingControlRead routingStale
        ({ describeRoutingControl := (some routingDeployed, none) } : Script).client []).d.status =
      "DEPLOYED" ∧
    (resourceAwsRoute53RecoveryControlConfigRoutingControlRead routingStale
        ({ describeRoutingControl := (some routingDeployed, none) } : Script).client
        []).d.cluster_arn = "arn:aws:cluster/0" :=
  ⟨rfl, routingControlRead_replaces_described_attributes routingStale
    ({ describeRoutingControl := (some routingDeployed, none) } : Script).client []
    routingDeployed rfl⟩

/-- C6, as stated, fails: after a successful Read the cluster_arn attribute is not
determined by the described routing control.  Two local states that differ in
cluster_arn only, read against the same answer, still differ in cluster_arn. -/
theorem routingControlRead_cluster_arn_not_replaced :
    ¬ ∀ (d₁ d₂ : RoutingControlResourceData) (meta : AWSClient) (log : List Call)
        (r : RoutingControl),
        meta.route53recoverycontrolconfigconn.DescribeRoutingControl log
            { RoutingControlArn := some d₁.id } = ({ RoutingControl := some r }, none) →
        meta.route53recoverycontrolconfigconn.DescribeRoutingControl log
            { RoutingControlArn := some d₂.id } = ({ RoutingControl := some r }, none) →
        (resourceAwsRoute53RecoveryControlConfigRoutingControlRead d₁ meta log).d.cluster_arn =
          (resourceAwsRoute53RecoveryControlConfigRoutingControlRead d₂ meta log).d.cluster_arn := by
  intro h
  have h₂ := h routingStale { routingStale with cluster_arn := "arn:aws:cluster/9" }
    ({ describeRoutingControl := (some routingDeployed, none) } : Script).client []
    routingDeployed rfl rfl
  revert h₂
  decide

/-- C1, evaluated where it fails.  The resource is not new and Describe answers
with the ResourceNotFoundException error: both Read handlers return the
"Error describing" error and leave the identifier and every attribute as they
were. -/
theorem read_returns_error_on_notFound_error :
    resourceAwsRoute53RecoveryControlConfigControlPanelRead panelStale
        ({ describeControlPanel := (none, some notFoundException) } : Script).client [] =
      { err := Result.errorf
          "Error describing Route53 Recovery Control Config Control Panel: %s" none
          (some (Err.awsErr "ResourceNotFoundException" "resource does not exist"))
        d := panelStale
        log := [Call.DescribeControlPanel { ControlPanelArn := some "arn:aws:panel/1" }] } ∧
    resourceAwsRoute53RecoveryControlConfigRoutingControlRead routingStale
        ({ describeRoutingControl := (none, some notFoundException) } : Script).client [] =
      { err := Result.errorf
          "Error describing Route53 Recovery Control Config Routing Control: %s" none
          (some (Err.awsErr "ResourceNotFoundException" "resource does not exist"))
        d := routingStale
        log := [Call.DescribeRoutingControl { RoutingControlArn := some "arn:aws:routing/1" }] } :=
  ⟨rfl, rfl⟩

/-- C9, evaluated where it fails.  The resource is new and Describe answers with
neither an error nor a resource: both Read handlers skip the clear-identifier
branch and read the fields of the nil result.  Create hands its own, new resource
data to Read, and ends the same way when the create call and the waiter succeed. -/
theorem read_dereferences_nil_result_of_new_resource :
    (resourceAwsRoute53RecoveryControlConfigControlPanelRead
        { panelPlanned with id := "arn:aws:panel/1" }
        ({ describeControlPanel := (none, none) } : Script).client []).err =
      Result.nilPointerDereference ∧
    (resourceAwsRoute53RecoveryControlConfigRoutingControlRead
        { routingPlanned with id := "arn:aws:routing/1" }
        ({ describeRoutingControl := (none, none) } : Script).client []).err =
      Result.nilPointerDereference ∧
    (resourceAwsRoute53RecoveryControlConfigControlPanelCreate
        emptyDescribeScript.waiter "terraform-1" panelPlanned
        emptyDescribeScript.client []).err = Result.nilPointerDereference ∧
    (resourceAwsRoute53RecoveryControlConfigRoutingControlCreate
        emptyDescribeScript.waiter "terraform-1" routingPlanned
        emptyDescribeScript.client []).err = Result.nilPointerDereference :=
  ⟨rfl, rfl, rfl, rfl⟩

/-! ## Create -/

/-- C3: for both resource kinds, when the create call answers with an error, or
with a response that carries no resource, Create returns an error, leaves the
resource data (the stored identifier included) as it was, and has called nothing
but the create operation: neither the creation waiter nor Describe, the first
step of Read. -/
theorem create_fails_on_error_or_empty_response
    (waiter : Waiter) (uniqueId : String) (meta : AWSClient) (log : List Call)
    (dp : ControlPanelResourceData) (dr : RoutingControlResourceData) :
    (((meta.route53recoverycontrolconfigconn.CreateControlPanel log
          { ClientToken := some uniqueId
            ClusterArn := some dp.cluster_arn
            ControlPanelName := some dp.name }).2.isSome ∨
      (meta.route53recoverycontrolconfigconn.CreateControlPanel log
          { ClientToken := some uniqueId
            ClusterArn := some dp.cluster_arn
            ControlPanelName := some dp.name }).1.ControlPanel = none) →
      (resourceAwsRoute53RecoveryControlConfigControlPanelCreate waiter uniqueId dp meta
          log).err.isError = true ∧
      (resourceAwsRoute53RecoveryControlConfigControlPanelCreate waiter uniqueId dp meta
          log).d = dp ∧
      (resourceAwsRoute53RecoveryControlConfigControlPanelCreate waiter uniqueId dp meta
          log).log =
        log ++ [Call.CreateControlPanel
          { ClientToken := some uniqueId
            ClusterArn := some dp.cluster_arn
            ControlPanelName := some dp.name }]) ∧
    (((meta.route53recoverycontrolconfigconn.CreateRoutingControl log
          { ClientToken := some uniqueId
            ClusterArn := some dr.cluster_arn
            ControlPanelArn :=
              if dr.control_panel_arn = "" then none else some dr.control_panel_arn
            RoutingControlName := some dr.name }).2.isSome ∨
      (meta.route53recoverycontrolconfigconn.CreateRoutingControl log
          { ClientToken := some uniqueId
            ClusterArn := some dr.cluster_arn
            ControlPanelArn :=
              if dr.control_panel_arn = "" then none else some dr.control_panel_arn
            RoutingControlName := some dr.name }).1.RoutingControl = none) →
      (resourceAwsRoute53RecoveryControlConfigRoutingControlCreate waiter uniqueId dr meta
          log).err.isError = true ∧
      (resourceAwsRoute53RecoveryControlConfigRoutingControlCreate waiter uniqueId dr meta
          log).d = dr ∧
      (resourceAwsRoute53RecoveryControlConfigRoutingControlCreate waiter uniqueId dr meta
          log).log =
        log ++ [Call.CreateRoutingControl
          { ClientToken := some uniqueId
            ClusterArn := some dr.cluster_arn
            ControlPanelArn :=
              if dr.control_panel_arn = "" then none else some dr.control_panel_arn
            RoutingControlName := some dr.name }]) := by
  refine ⟨?_, ?_⟩
  · intro h
    rcases hr : meta.route53recoverycontrolconfigconn.CreateControlPanel log
        { ClientToken := some uniqueId
          ClusterArn := some dp.cluster_arn
          ControlPanelName := some dp.name } with ⟨⟨cp⟩, e⟩
    rw [hr] at h
    simp only [resourceAwsRoute53RecoveryControlConfigControlPanelCreate, aws_String, hr]
    cases e with
    | some e => simp [Result.isError]
    | none =>
      cases cp with
      | none => simp [Result.isError]
      | some c => simp at h
  · intro h
    by_cases hc : dr.control_panel_arn = ""
    · simp only [hc, if_true] at h ⊢
      rcases hr : meta.route53recoverycontrolconfigconn.CreateRoutingControl log
          { ClientToken := some uniqueId
            ClusterArn := some dr.cluster_arn
            ControlPanelArn := none
            RoutingControlName := some dr.name } with ⟨⟨cp⟩, e⟩
      rw [hr] at h
      simp only [resourceAwsRoute53RecoveryControlConfigRoutingControlCreate, aws_String,
        getOkString, hc, hr]
      cases e with
      | some e => simp [Result.isError, hr]
      | none =>
        cases cp with
        | none => simp [Result.isError, hr]
        | some c => simp at h
    · simp only [hc, if_false] at h ⊢
      rcases hr : meta.route53recoverycontrolconfigconn.CreateRoutingControl log
          { ClientToken := some uniqueId
            ClusterArn := some dr.cluster_arn
            ControlPanelArn := some dr.control_panel_arn
            RoutingControlName := some dr.name } with ⟨⟨cp⟩, e⟩
      rw [hr] at h
      have hb : (dr.control_panel_arn != "") = true := by simpa using hc
      simp only [resourceAwsRoute53RecoveryControlConfigRoutingControlCreate, aws_String,
        getOkString, hb, hr]
      cases e with
      | some e => simp [Result.isError, hr]
      | none =>
        cases cp with
        | none => simp [Result.isError, hr]
        | some c => simp at h

/-- C3 at a planned control panel whose create call is throttled, and at a planned
routing control whose create call answers with an empty response. -/
theorem create_fails_on_error_or_empty_response_witness :
    (((createFailsScript.client.1.CreateControlPanel []
          { ClientToken := some "terraform-1"
            ClusterArn := some "arn:aws:cluster/1"
            ControlPanelName := some "panel-a" }).2.isSome ∨
        (createFailsScript.client.1.CreateControlPanel []
          { ClientToken := some "terraform-1"
            ClusterArn := some "arn:aws:cluster/1"
            ControlPanelName := some "panel-a" }).1.ControlPanel = none) ∧
      (resourceAwsRoute53RecoveryControlConfigControlPanelCreate createFailsScript.waiter
          "terraform-1" panelPlanned createFailsScript.client []).err.isError = true ∧
      (resourceAwsRoute53RecoveryControlConfigControlPanelCreate createFailsScript.waiter
          "terraform-1" panelPlanned createFailsScript.client []).d = panelPlanned ∧
      (resourceAwsRoute53RecoveryControlConfigControlPanelCreate createFailsScript.waiter
          "terraform-1" panelPlanned createFailsScript.client []).log =
        [Call.CreateControlPanel
          { ClientToken := some "terraform-1"
            ClusterArn := some "arn:aws:cluster/1"
            ControlPanelName := some "panel-a" }]) ∧
    (((createFailsScript.client.1.CreateRoutingControl []
          { ClientToken := some "terraform-1"
            ClusterArn := some "arn:aws:cluster/1"
            ControlPanelArn := some "arn:aws:panel/1"
            RoutingControlName := some "routing-a" }).2.isSome ∨
        (createFailsScript.client.1.CreateRoutingControl []
          { ClientToken := some "terraform-1"
            ClusterArn := some "arn:aws:cluster/1"
            ControlPanelArn := some "arn:aws:panel/1"
            RoutingControlName := some "routing-a" }).1.RoutingControl = none) ∧
      (resourceAwsRoute53RecoveryControlConfigRoutingControlCreate createFailsScript.waiter
          "terraform-1" routingPlanned createFailsScript.client []).err.isError = true ∧
      (resourceAwsRoute53RecoveryControlConfigRoutingControlCreate createFailsScript.waiter
          "terraform-1" routingPlanned createFailsScript.client []).d = routingPlanned ∧
      (resourceAwsRoute53RecoveryControlConfigRoutingControlCreate createFailsScript.waiter
          "terraform-1" routingPlanned createFailsScript.client []).log =
        [Call.CreateRoutingControl
          { ClientToken := some "terraform-1"
            ClusterArn := some "arn:aws:cluster/1"
            ControlPanelArn := some "arn:aws:panel/1"
            RoutingControlName := some "routing-a" }]) :=
  ⟨⟨Or.inl rfl,
    (create_fails_on_error_or_empty_response createFailsScript.waiter "terraform-1"
      createFailsScript.client [] panelPlanned routingPlanned).1 (Or.inl rfl)⟩,
   ⟨Or.inr rfl,
    (create_fails_on_error_or_empty_response createFailsScript.waiter "terraform-1"
      createFailsScript.client [] panelPlanned routingPlanned).2 (Or.inr rfl)⟩⟩

/-- C8: the request Create sends.  The control panel request carries the generated
client token, the configured cluster ARN and the configured name, and nothing
else.  The routing control request carries the token, the configured cluster ARN
and name, and a control-panel ARN exactly when control_panel_arn is configured
with a non-empty value, which is then the value sent. -/
theorem create_request_carries_configuration
    (waiter : Waiter) (uniqueId : String) (meta : AWSClient) (log : List Call)
    (dp : ControlPanelResourceData) (dr : RoutingControlResourceData) :
    (∃ rest : List Call,
      (resourceAwsRoute53RecoveryControlConfigControlPanelCreate waiter uniqueId dp meta
          log).log =
        log ++ Call.CreateControlPanel
          { ClientToken := some uniqueId
            ClusterArn := some dp.cluster_arn
            ControlPanelName := some dp.name } :: rest) ∧
    (∃ (input : CreateRoutingControlInput) (rest : List Call),
      (resourceAwsRoute53RecoveryControlConfigRoutingControlCreate waiter uniqueId dr meta
          log).log = log ++ Call.CreateRoutingControl input :: rest ∧
      input.ClientToken = some uniqueId ∧
      input.ClusterArn = some dr.cluster_arn ∧
      input.RoutingControlName = some dr.name ∧
      (input.ControlPanelArn.isSome = true ↔ dr.control_panel_arn ≠ "") ∧
      (dr.control_panel_arn ≠ "" → input.ControlPanelArn = some dr.control_panel_arn)) := by
  refine ⟨?_, ?_⟩
  · rcases hr : meta.route53recoverycontrolconfigconn.CreateControlPanel log
        { ClientToken := some uniqueId
          ClusterArn := some dp.cluster_arn
          ControlPanelName := some dp.name } with ⟨⟨cp⟩, e⟩
    simp only [resourceAwsRoute53RecoveryControlConfigControlPanelCreate, aws_String, hr]
    cases e with
    | some e => exact ⟨[], rfl⟩
    | none =>
      cases cp with
      | none => exact ⟨[], rfl⟩
      | some c =>
        simp only []
        split
        · exact ⟨[Call.ControlPanelCreated (aws_StringValue c.ControlPanelArn)], by
            simp [ControlPanelResourceData.Id, ControlPanelResourceData.SetId]⟩
        · rw [controlPanelRead_log]
          exact ⟨[Call.ControlPanelCreated (aws_StringValue c.ControlPanelArn),
            Call.DescribeControlPanel { ControlPanelArn := some (aws_StringValue c.ControlPanelArn) }],
            by simp [ControlPanelResourceData.Id, ControlPanelResourceData.SetId]⟩
  · refine ⟨{ ClientToken := some uniqueId
              ClusterArn := some dr.cluster_arn
              ControlPanelArn :=
                if dr.control_panel_arn = "" then none else some dr.control_panel_arn
              RoutingControlName := some dr.name }, ?_⟩
    by_cases hc : dr.control_panel_arn = ""
    · simp only [hc, if_true]
      rcases hr : meta.route53recoverycontrolconfigconn.CreateRoutingControl log
          { ClientToken := some uniqueId
            ClusterArn := some dr.cluster_arn
            ControlPanelArn := none
            RoutingControlName := some dr.name } with ⟨⟨cp⟩, e⟩
      simp only [resourceAwsRoute53RecoveryControlConfigRoutingControlCreate, aws_String,
        getOkString, hc, hr]
      cases e with
      | some e => exact ⟨[], by simp [hr]⟩
      | none =>
        cases cp with
        | none => exact ⟨[], by simp [hr]⟩
        | some c =>
          simp only [bne_self_eq_false, hr]
          split
          · exact ⟨[Call.RoutingControlCreated (aws_StringValue c.RoutingControlArn)], by
              simp [RoutingControlResourceData.Id, RoutingControlResourceData.SetId]⟩
          · rw [routingControlRead_log]
            exact ⟨[Call.RoutingControlCreated (aws_StringValue c.RoutingControlArn),
              Call.DescribeRoutingControl
                { RoutingControlArn := some (aws_StringValue c.RoutingControlArn) }],
              by simp [RoutingControlResourceData.Id, RoutingControlResourceData.SetId]⟩
    · simp only [hc, if_false]
      rcases hr : meta.route53recoverycontrolconfigconn.CreateRoutingControl log
          { ClientToken := some uniqueId
            ClusterArn := some dr.cluster_arn
            ControlPanelArn := some dr.control_panel_arn
            RoutingControlName := some dr.name } with ⟨⟨cp⟩, e⟩
      have hb : (dr.control_panel_arn != "") = true := by simpa using hc
      simp only [resourceAwsRoute53RecoveryControlConfigRoutingControlCreate, aws_String,
        getOkString, hb, hr]
      cases e with
      | some e => exact ⟨[], by simp [hr, hc]⟩
      | none =>
        cases cp with
        | none => exact ⟨[], by simp [hr, hc]⟩
        | some c =>
          simp only [hr]
          split
          · exact ⟨[Call.RoutingControlCreated (aws_StringValue c.RoutingControlArn)], by
              simp [RoutingControlResourceData.Id, RoutingControlResourceData.SetId, hc]⟩
          · rw [routingControlRead_log]
            exact ⟨[Call.RoutingControlCreated (aws_StringValue c.RoutingControlArn),
              Call.DescribeRoutingControl
                { RoutingControlArn := some (aws_StringValue c.RoutingControlArn) }],
              by simp [RoutingControlResourceData.Id, RoutingControlResourceData.SetId, hc]⟩

/-- C8 at a planned routing control with control_panel_arn "arn:aws:panel/1": the
first call of Create is the create operation with the token, the configured cluster
ARN and name, and that control-panel ARN. -/
theorem create_request_carries_configuration_witness :
    routingPlanned.control_panel_arn ≠ "" ∧
    ∃ rest : List Call,
      (resourceAwsRoute53RecoveryControlConfigRoutingControlCreate deployScript.waiter
          "terraform-1" routingPlanned deployScript.client []).log =
        Call.CreateRoutingControl
          { ClientToken := some "terraform-1"
            ClusterArn := some "arn:aws:cluster/1"
            ControlPanelArn := some "arn:aws:panel/1"
            RoutingControlName := some "routing-a" } :: rest := by
  refine ⟨by decide, ?_⟩
  obtain ⟨input, rest, hlog, ht, hc, hn, -, hp⟩ :=
    (create_request_carries_configuration deployScript.waiter "terraform-1"
      deployScript.client [] panelPlanned routingPlanned).2
  have hp₂ := hp (by decide)
  refine ⟨rest, ?_⟩
  rw [hlog]
  cases input
  simp only at ht hc hn hp₂
  subst ht hc hn hp₂
  rfl

/-- C10: for both resource kinds, when the create call answers without error and
with a resource of ARN `a`, and the creation waiter, called with `a`, answers with
an error, Create returns an error, the stored identifier is `a`, every attribute is
as it was, and Describe (the first step of Read) has not been called. -/
theorem create_keeps_identifier_when_waiter_fails
    (waiter : Waiter) (uniqueId : String) (meta : AWSClient) (log : List Call)
    (dp : ControlPanelResourceData) (dr : RoutingControlResourceData) :
    (∀ (c : ControlPanel) (a : String) (e : Err),
      meta.route53recoverycontrolconfigconn.CreateControlPanel log
          { ClientToken := some uniqueId
            ClusterArn := some dp.cluster_arn
            ControlPanelName := some dp.name } = ({ ControlPanel := some c }, none) →
      c.ControlPanelArn = some a →
      waiter.Route53RecoveryControlConfigControlPanelCreated
          meta.route53recoverycontrolconfigconn
          (log ++ [Call.CreateControlPanel
            { ClientToken := some uniqueId
              ClusterArn := some dp.cluster_arn
              ControlPanelName := some dp.name }]) a = some e →
      resourceAwsRoute53RecoveryControlConfigControlPanelCreate waiter uniqueId dp meta log =
        { err := Result.errorf
            "Error waiting for Route53 Recovery Control Config Control Panel (%s) to be Deployed: %w"
            (some a) (some e)
          d := { dp with id := a }
          log := log ++
            [Call.CreateControlPanel
              { ClientToken := some uniqueId
                ClusterArn := some dp.cluster_arn
                ControlPanelName := some dp.name },
             Call.ControlPanelCreated a] }) ∧
    (∀ (c : RoutingControl) (a : String) (e : Err),
      meta.route53recoverycontrolconfigconn.CreateRoutingControl log
          { ClientToken := some uniqueId
            ClusterArn := some dr.cluster_arn
            ControlPanelArn :=
              if dr.control_panel_arn = "" then none else some dr.control_panel_arn
            RoutingControlName := some dr.name } = ({ RoutingControl := some c }, none) →
      c.RoutingControlArn = some a →
      waiter.Route53RecoveryControlConfigRoutingControlCreated
          meta.route53recoverycontrolconfigconn
          (log ++ [Call.CreateRoutingControl
            { ClientToken := some uniqueId
              ClusterArn := some dr.cluster_arn
              ControlPanelArn :=
                if dr.control_panel_arn = "" then none else some dr.control_panel_arn
              RoutingControlName := some dr.name }]) a = some e →
      resourceAwsRoute53RecoveryControlConfigRoutingControlCreate waiter uniqueId dr meta log =
        { err := Result.errorf
            "Error waiting for Route53 Recovery Control Config Routing Control (%s) to be Deployed: %w"
            (some a) (some e)
          d := { dr with id := a }
          log := log ++
            [Call.CreateRoutingControl
              { ClientToken := some uniqueId
                ClusterArn := some dr.cluster_arn
                ControlPanelArn :=
                  if dr.control_panel_arn = "" then none else some dr.control_panel_arn
                RoutingControlName := some dr.name },
             Call.RoutingControlCreated a] }) := by
  refine ⟨?_, ?_⟩
  · intro c a e hr ha hw
    simp only [resourceAwsRoute53RecoveryControlConfigControlPanelCreate, aws_String, hr, ha,
      aws_StringValue, ControlPanelResourceData.Id, ControlPanelResourceData.SetId, hw]
    simp
  · intro c a e hr ha hw
    by_cases hc : dr.control_panel_arn = ""
    · simp only [hc, if_true] at hr hw ⊢
      simp only [resourceAwsRoute53RecoveryControlConfigRoutingControlCreate, aws_String,
        getOkString, hc, bne_self_eq_false, hr, ha,
        aws_StringValue, RoutingControlResourceData.Id, RoutingControlResourceData.SetId, hw]
      simp
    · simp only [hc, if_false] at hr hw ⊢
      have hb : (dr.control_panel_arn != "") = true := by simpa using hc
      simp only [resourceAwsRoute53RecoveryControlConfigRoutingControlCreate, aws_String,
        getOkString, hb, hr, ha,
        aws_StringValue, RoutingControlResourceData.Id, RoutingControlResourceData.SetId, hw]
      simp

/-- C10 at a planned control panel and a planned routing control whose creation
waiter times out: the identifier holds the returned ARN and no attribute changed. -/
theorem create_keeps_identifier_when_waiter_fails_witness :
    (waiterFailsScript.client.1.CreateControlPanel []
          { ClientToken := some "terraform-1"
            ClusterArn := some "arn:aws:cluster/1"
            ControlPanelName := some "panel-a" } = ({ ControlPanel := some panelPending }, none) ∧
      panelPending.ControlPanelArn = some "arn:aws:panel/1" ∧
      waiterFailsScript.waiter.Route53RecoveryControlConfigControlPanelCreated
          waiterFailsScript.client.1
          [Call.CreateControlPanel
            { ClientToken := some "terraform-1"
              ClusterArn := some "arn:aws:cluster/1"
              ControlPanelName := some "panel-a" }]
          "arn:aws:panel/1" = some (Err.other "timeout") ∧
      resourceAwsRoute53RecoveryControlConfigControlPanelCreate waiterFailsScript.waiter
          "terraform-1" panelPlanned waiterFailsScript.client [] =
        { err := Result.errorf
            "Error waiting for Route53 Recovery Control Config Control Panel (%s) to be Deployed: %w"
            (some "arn:aws:panel/1") (some (Err.other "timeout"))
          d := { panelPlanned with id := "arn:aws:panel/1" }
          log :=
            [Call.CreateControlPanel
              { ClientToken := some "terraform-1"
                ClusterArn := some "arn:aws:cluster/1"
                ControlPanelName := some "panel-a" },
             Call.ControlPanelCreated "arn:aws:panel/1"] }) ∧
    (waiterFailsScript.client.1.CreateRoutingControl []
          { ClientToken := some "terraform-1"
            ClusterArn := some "arn:aws:cluster/1"
            ControlPanelArn := some "arn:aws:panel/1"
            RoutingControlName := some "routing-a" } =
        ({ RoutingControl := some routingPending }, none) ∧
      routingPending.RoutingControlArn = some "arn:aws:routing/1" ∧
      waiterFailsScript.waiter.Route53RecoveryControlConfigRoutingControlCreated
          waiterFailsScript.client.1
          [Call.CreateRoutingControl
            { ClientToken := some "terraform-1"
              ClusterArn := some "arn:aws:cluster/1"
              ControlPanelArn := some "arn:aws:panel/1"
              RoutingControlName := some "routing-a" }]
          "arn:aws:routing/1" = some (Err.other "timeout") ∧
      resourceAwsRoute53RecoveryControlConfigRoutingControlCreate waiterFailsScript.waiter
          "terraform-1" routingPlanned waiterFailsScript.client [] =
        { err := Result.errorf
            "Error waiting for Route53 Recovery Control Config Routing Control (%s) to be Deployed: %w"
            (some "arn:aws:routing/1") (some (Err.other "timeout"))
          d := { routingPlanned with id := "arn:aws:routing/1" }
          log :=
            [Call.CreateRoutingControl
              { ClientToken := some "terraform-1"
                ClusterArn := some "arn:aws:cluster/1"
                ControlPanelArn := some "arn:aws:panel/1"
                RoutingControlName := some "routing-a" },
             Call.RoutingControlCreated "arn:aws:routing/1"] }) :=
  ⟨⟨rfl, rfl, rfl,
    (create_keeps_identifier_when_waiter_fails waiterFailsScript.waiter "terraform-1"
      waiterFailsScript.client [] panelPlanned routingPlanned).1
      panelPending "arn:aws:panel/1" (Err.other "timeout") rfl rfl rfl⟩,
   ⟨rfl, rfl, rfl,
    (create_keeps_identifier_when_waiter_fails waiterFailsScript.waiter "terraform-1"
      waiterFailsScript.client [] panelPlanned routingPlanned).2
      routingPending "arn:aws:routing/1" (Err.other "timeout") rfl rfl rfl⟩⟩

/-- C4, as amended: for both resource kinds, when the create call answers without
error and with a resource of ARN `a`, the creation waiter, called with `a`,
succeeds, and Describe for `a` then answers without error and with a resource `r`,
Create returns nil, the stored identifier is `a`, the calls made are the create
call, the waiter with `a` and Describe with `a`, and every attribute that `r`
carries a field for holds the value that field points to (the zero value of the
attribute type for a nil pointer): all six attributes of a control panel, and
routing_control_arn, control_panel_arn, name and status of a routing control, whose
cluster_arn keeps the configured value. -/
theorem create_then_read_mirrors_described_resource
    (waiter : Waiter) (uniqueId : String) (meta : AWSClient) (log : List Call)
    (dp : ControlPanelResourceData) (dr : RoutingControlResourceData) :
    (∀ (c r : ControlPanel) (a : String),
      meta.route53recoverycontrolconfigconn.CreateControlPanel log
          { ClientToken := some uniqueId
            ClusterArn := some dp.cluster_arn
            ControlPanelName := some dp.name } = ({ ControlPanel := some c }, none) →
      c.ControlPanelArn = some a →
      waiter.Route53RecoveryControlConfigControlPanelCreated
          meta.route53recoverycontrolconfigconn
          (log ++ [Call.CreateControlPanel
            { ClientToken := some uniqueId
              ClusterArn := some dp.cluster_arn
              ControlPanelName := some dp.name }]) a = none →
      meta.route53recoverycontrolconfigconn.DescribeControlPanel
          (log ++ [Call.CreateControlPanel
            { ClientToken := some uniqueId
              ClusterArn := some dp.cluster_arn
              ControlPanelName := some dp.name }] ++ [Call.ControlPanelCreated a])
          { ControlPanelArn := some a } = ({ ControlPanel := some r }, none) →
      resourceAwsRoute53RecoveryControlConfigControlPanelCreate waiter uniqueId dp meta log =
        { err := Result.nil
          d :=
            { id := a
              isNew := dp.isNew
              control_panel_arn := r.ControlPanelArn.getD ""
              cluster_arn := r.ClusterArn.getD ""
              default_control_panel := r.DefaultControlPanel.getD false
              routing_control_count := r.RoutingControlCount.getD 0
              name := r.Name.getD ""
              status := r.Status.getD "" }
          log := log ++
            [Call.CreateControlPanel
              { ClientToken := some uniqueId
                ClusterArn := some dp.cluster_arn
                ControlPanelName := some dp.name },
             Call.ControlPanelCreated a,
             Call.DescribeControlPanel { ControlPanelArn := some a }] }) ∧
    (∀ (c r : RoutingControl) (a : String),
      meta.route53recoverycontrolconfigconn.CreateRoutingControl log
          { ClientToken := some uniqueId
            ClusterArn := some dr.cluster_arn
            ControlPanelArn :=
              if dr.control_panel_arn = "" then none else some dr.control_panel_arn
            RoutingControlName := some dr.name } = ({ RoutingControl := some c }, none) →
      c.RoutingControlArn = some a →
      waiter.Route53RecoveryControlConfigRoutingControlCreated
          meta.route53recoverycontrolconfigconn
          (log ++ [Call.CreateRoutingControl
            { ClientToken := some uniqueId
              ClusterArn := some dr.cluster_arn
              ControlPanelArn :=
                if dr.control_panel_arn = "" then none else some dr.control_panel_arn
              RoutingControlName := some dr.name }]) a = none →
      meta.route53recoverycontrolconfigconn.DescribeRoutingControl
          (log ++ [Call.CreateRoutingControl
            { ClientToken := some uniqueId
              ClusterArn := some dr.cluster_arn
              ControlPanelArn :=
                if dr.control_panel_arn = "" then none else some dr.control_panel_arn
              RoutingControlName := some dr.name }] ++ [Call.RoutingControlCreated a])
          { RoutingControlArn := some a } = ({ RoutingControl := some r }, none) →
      resourceAwsRoute53RecoveryControlConfigRoutingControlCreate waiter uniqueId dr meta log =
        { err := Result.nil
          d :=
            { id := a
              isNew := dr.isNew
              routing_control_arn := r.RoutingControlArn.getD ""
              cluster_arn := dr.cluster_arn
              control_panel_arn := r.ControlPanelArn.getD ""
              name := r.Name.getD ""
              status := r.Status.getD "" }
          log := log ++
            [Call.CreateRoutingControl
              { ClientToken := some uniqueId
                ClusterArn := some dr.cluster_arn
                ControlPanelArn :=
                  if dr.control_panel_arn = "" then none else some dr.control_panel_arn
                RoutingControlName := some dr.name },
             Call.RoutingControlCreated a,
             Call.DescribeRoutingControl { RoutingControlArn := some a }] }) := by
  refine ⟨?_, ?_⟩
  · intro c r a hr ha hw hd
    simp only [resourceAwsRoute53RecoveryControlConfigControlPanelCreate, aws_String, hr, ha,
      aws_StringValue, ControlPanelResourceData.Id, ControlPanelResourceData.SetId, hw]
    rw [controlPanelRead_of_described _ meta _ r hd]
    simp
  · intro c r a hr ha hw hd
    by_cases hc : dr.control_panel_arn = ""
    · simp only [hc, if_true] at hr hw hd ⊢
      simp only [resourceAwsRoute53RecoveryControlConfigRoutingControlCreate, aws_String,
        getOkString, hc, bne_self_eq_false, hr, ha,
        aws_StringValue, RoutingControlResourceData.Id, RoutingControlResourceData.SetId, hw]
      rw [routingControlRead_of_described _ meta _ r hd]
      simp
    · simp only [hc, if_false] at hr hw hd ⊢
      have hb : (dr.control_panel_arn != "") = true := by simpa using hc
      simp only [resourceAwsRoute53RecoveryControlConfigRoutingControlCreate, aws_String,
        getOkString, hb, hr, ha,
        aws_StringValue, RoutingControlResourceData.Id, RoutingControlResourceData.SetId, hw]
      rw [routingControlRead_of_described _ meta _ r hd]
      simp

/-- C4, as amended, at the scenario of the specification: Create with cluster_arn
"arn:aws:cluster/1" and name "panel-a", the create call returns ARN
"arn:aws:panel/1" with status "PENDING", the waiter succeeds, Describe reports
status "DEPLOYED"; and the same run for a routing control. -/
theorem create_then_read_mirrors_described_resource_witness :
    (deployScript.client.1.CreateControlPanel []
          { ClientToken := some "terraform-1"
            ClusterArn := some "arn:aws:cluster/1"
            ControlPanelName := some "panel-a" } = ({ ControlPanel := some panelPending }, none) ∧
      panelPending.ControlPanelArn = some "arn:aws:panel/1" ∧
      deployScript.waiter.Route53RecoveryControlConfigControlPanelCreated
          deployScript.client.1
          [Call.CreateControlPanel
            { ClientToken := some "terraform-1"
              ClusterArn := some "arn:aws:cluster/1"
              ControlPanelName := some "panel-a" }]
          "arn:aws:panel/1" = none ∧
      deployScript.client.1.DescribeControlPanel
          [Call.CreateControlPanel
            { ClientToken := some "terraform-1"
              ClusterArn := some "arn:aws:cluster/1"
              ControlPanelName := some "panel-a" },
           Call.ControlPanelCreated "arn:aws:panel/1"]
          { ControlPanelArn := some "arn:aws:panel/1" } =
        ({ ControlPanel := some panelDeployed }, none) ∧
      resourceAwsRoute53RecoveryControlConfigControlPanelCreate deployScript.waiter
          "terraform-1" panelPlanned deployScript.client [] =
        { err := Result.nil
          d :=
            { id := "arn:aws:panel/1"
              isNew := true
              control_panel_arn := "arn:aws:panel/1"
              cluster_arn := "arn:aws:cluster/1"
              default_control_panel := true
              routing_control_count := 2
              name := "panel-a"
              status := "DEPLOYED" }
          log :=
            [Call.CreateControlPanel
              { ClientToken := some "terraform-1"
                ClusterArn := some "arn:aws:cluster/1"
                ControlPanelName := some "panel-a" },
             Call.ControlPanelCreated "arn:aws:panel/1",
             Call.DescribeControlPanel { ControlPanelArn := some "arn:aws:panel/1" }] }) ∧
    (deployScript.client.1.CreateRoutingControl []
          { ClientToken := some "terraform-1"
            ClusterArn := some "arn:aws:cluster/1"
            ControlPanelArn := some "arn:aws:panel/1"
            RoutingControlName := some "routing-a" } =
        ({ RoutingControl := some routingPending }, none) ∧
      routingPending.RoutingControlArn = some "arn:aws:routing/1" ∧
      deployScript.waiter.Route53RecoveryControlConfigRoutingControlCreated
          deployScript.client.1
          [Call.CreateRoutingControl
            { ClientToken := some "terraform-1"
              ClusterArn := some "arn:aws:cluster/1"
              ControlPanelArn := some "arn:aws:panel/1"
              RoutingControlName := some "routing-a" }]
          "arn:aws:routing/1" = none ∧
      deployScript.client.1.DescribeRoutingControl
          [Call.CreateRoutingControl
            { ClientToken := some "terraform-1"
              ClusterArn := some "arn:aws:cluster/1"
              ControlPanelArn := some "arn:aws:panel/1"
              RoutingControlName := some "routing-a" },
           Call.RoutingControlCreated "arn:aws:routing/1"]
          { RoutingControlArn := some "arn:aws:routing/1" } =
        ({ RoutingControl := some routingDeployed }, none) ∧
      resourceAwsRoute53RecoveryControlConfigRoutingControlCreate deployScript.waiter
          "terraform-1" routingPlanned deployScript.client [] =
        { err := Result.nil
          d :=
            { id := "arn:aws:routing/1"
              isNew := true
              routing_control_arn := "arn:aws:routing/1"
              cluster_arn := "arn:aws:cluster/1"
              control_panel_arn := "arn:aws:panel/1"
              name := "routing-a"
              status := "DEPLOYED" }
          log :=
            [Call.CreateRoutingControl
              { ClientToken := some "terraform-1"
                ClusterArn := some "arn:aws:cluster/1"
                ControlPanelArn := some "arn:aws:panel/1"
                RoutingControlName := some "routing-a" },
             Call.RoutingControlCreated "arn:aws:routing/1",
             Call.DescribeRoutingControl { RoutingControlArn := some "arn:aws:routing/1" }] }) :=
  ⟨⟨rfl, rfl, rfl, rfl,
    (create_then_read_mirrors_described_resource deployScript.waiter "terraform-1"
      deployScript.client [] panelPlanned routingPlanned).1
      panelPending panelDeployed "arn:aws:panel/1" rfl rfl rfl rfl⟩,
   ⟨rfl, rfl, rfl, rfl,
    (create_then_read_mirrors_described_resource deployScript.waiter "terraform-1"
      deployScript.client [] panelPlanned routingPlanned).2
      routingPending routingDeployed "arn:aws:routing/1" rfl rfl rfl rfl⟩⟩

/-- C4, as stated, fails for routing controls: after a successful Create the
cluster_arn attribute is not a value of the described routing control.  Two
configurations that differ in cluster_arn only, created against the same answers
of the create call, the waiter and Describe, still differ in cluster_arn. -/
theorem routingControlCreate_cluster_arn_not_described :
    ¬ ∀ (waiter : Waiter) (uniqueId : String) (meta : AWSClient) (log : List Call)
        (d₁ d₂ : RoutingControlResourceData) (c r : RoutingControl) (a : String),
        c.RoutingControlArn = some a →
        meta.route53recoverycontrolconfigconn.CreateRoutingControl log
            { ClientToken := some uniqueId
              ClusterArn := some d₁.cluster_arn
              ControlPanelArn :=
                if d₁.control_panel_arn = "" then none else some d₁.control_panel_arn
              RoutingControlName := some d₁.name } = ({ RoutingControl := some c }, none) →
        waiter.Route53RecoveryControlConfigRoutingControlCreated
            meta.route53recoverycontrolconfigconn
            (log ++ [Call.CreateRoutingControl
              { ClientToken := some uniqueId
                ClusterArn := some d₁.cluster_arn
                ControlPanelArn :=
                  if d₁.control_panel_arn = "" then none else some d₁.control_panel_arn
                RoutingControlName := some d₁.name }]) a = none →
        meta.route53recoverycontrolconfigconn.DescribeRoutingControl
            (log ++ [Call.CreateRoutingControl
              { ClientToken := some uniqueId
                ClusterArn := some d₁.cluster_arn
                ControlPanelArn :=
                  if d₁.control_panel_arn = "" then none else some d₁.control_panel_arn
                RoutingControlName := some d₁.name }] ++ [Call.RoutingControlCreated a])
            { RoutingControlArn := some a } = ({ RoutingControl := some r }, none) →
        meta.route53recoverycontrolconfigconn.CreateRoutingControl log
            { ClientToken := some uniqueId
              ClusterArn := some d₂.cluster_arn
              ControlPanelArn :=
                if d₂.control_panel_arn = "" then none else some d₂.control_panel_arn
              RoutingControlName := some d₂.name } = ({ RoutingControl := some c }, none) →
        waiter.Route53RecoveryControlConfigRoutingControlCreated
            meta.route53recoverycontrolconfigconn
            (log ++ [Call.CreateRoutingControl
              { ClientToken := some uniqueId
                ClusterArn := some d₂.cluster_arn
                ControlPanelArn :=
                  if d₂.control_panel_arn = "" then none else some d₂.control_panel_arn
                RoutingControlName := some d₂.name }]) a = none →
        meta.route53recoverycontrolconfigconn.DescribeRoutingControl
            (log ++ [Call.CreateRoutingControl
              { ClientToken := some uniqueId
                ClusterArn := some d₂.cluster_arn
                ControlPanelArn :=
                  if d₂.control_panel_arn = "" then none else some d₂.control_panel_arn
                RoutingControlName := some d₂.name }] ++ [Call.RoutingControlCreated a])
            { RoutingControlArn := some a } = ({ RoutingControl := some r }, none) →
        (resourceAwsRoute53RecoveryControlConfigRoutingControlCreate waiter uniqueId d₁ meta
            log).d.cluster_arn =
          (resourceAwsRoute53RecoveryControlConfigRoutingControlCreate waiter uniqueId d₂ meta
            log).d.cluster_arn := by
  intro h
  have h₂ := h deployScript.waiter "terraform-1" deployScript.client []
    routingPlanned { routingPlanned with cluster_arn := "arn:aws:cluster/9" }
    routingPending routingDeployed "arn:aws:routing/1" rfl rfl rfl rfl rfl rfl rfl
  revert h₂
  decide

/-! ## Update -/

/-- C7, as amended: for both resource kinds, the first call Update makes is the
update operation, with a request of two fields: the ARN field holds the local
control_panel_arn attribute (control panel) or routing_control_arn attribute
(routing control), the name field holds the local name attribute.  When that call
answers with an error, Update returns an error, makes no further call, and leaves
the identifier and every attribute as they were. -/
theorem update_request_is_rename_by_arn_attribute
    (meta : AWSClient) (log : List Call)
    (dp : ControlPanelResourceData) (dr : RoutingControlResourceData) :
    ((∃ rest : List Call,
        (resourceAwsRoute53RecoveryControlConfigControlPanelUpdate dp meta log).log =
          log ++ Call.UpdateControlPanel
            { ControlPanelArn := some dp.control_panel_arn
              ControlPanelName := some dp.name } :: rest) ∧
      ((meta.route53recoverycontrolconfigconn.UpdateControlPanel log
          { ControlPanelArn := some dp.control_panel_arn
            ControlPanelName := some dp.name }).2.isSome = true →
        (resourceAwsRoute53RecoveryControlConfigControlPanelUpdate dp meta log).err.isError
          = true ∧
        (resourceAwsRoute53RecoveryControlConfigControlPanelUpdate dp meta log).d = dp ∧
        (resourceAwsRoute53RecoveryControlConfigControlPanelUpdate dp meta log).log =
          log ++ [Call.UpdateControlPanel
            { ControlPanelArn := some dp.control_panel_arn
              ControlPanelName := some dp.name }])) ∧
    ((∃ rest : List Call,
        (resourceAwsRoute53RecoveryControlConfigRoutingControlUpdate dr meta log).log =
          log ++ Call.UpdateRoutingControl
            { RoutingControlArn := some dr.routing_control_arn
              RoutingControlName := some dr.name } :: rest) ∧
      ((meta.route53recoverycontrolconfigconn.UpdateRoutingControl log
          { RoutingControlArn := some dr.routing_control_arn
            RoutingControlName := some dr.name }).2.isSome = true →
        (resourceAwsRoute53RecoveryControlConfigRoutingControlUpdate dr meta log).err.isError
          = true ∧
        (resourceAwsRoute53RecoveryControlConfigRoutingControlUpdate dr meta log).d = dr ∧
        (resourceAwsRoute53RecoveryControlConfigRoutingControlUpdate dr meta log).log =
          log ++ [Call.UpdateRoutingControl
            { RoutingControlArn := some dr.routing_control_arn
              RoutingControlName := some dr.name }])) := by
  refine ⟨?_, ?_⟩
  · rcases hr : meta.route53recoverycontrolconfigconn.UpdateControlPanel log
        { ControlPanelArn := some dp.control_panel_arn
          ControlPanelName := some dp.name } with ⟨out, e⟩
    simp only [resourceAwsRoute53RecoveryControlConfigControlPanelUpdate, aws_String, hr]
    cases e with
    | some e => exact ⟨⟨[], rfl⟩, fun _ => ⟨rfl, rfl, rfl⟩⟩
    | none =>
      refine ⟨?_, fun h => by simp at h⟩
      rw [controlPanelRead_log]
      exact ⟨[Call.DescribeControlPanel { ControlPanelArn := some dp.id }], by simp⟩
  · rcases hr : meta.route53recoverycontrolconfigconn.UpdateRoutingControl log
        { RoutingControlArn := some dr.routing_control_arn
          RoutingControlName := some dr.name } with ⟨out, e⟩
    simp only [resourceAwsRoute53RecoveryControlConfigRoutingControlUpdate, aws_String, hr]
    cases e with
    | some e => exact ⟨⟨[], rfl⟩, fun _ => ⟨rfl, rfl, rfl⟩⟩
    | none =>
      refine ⟨?_, fun h => by simp at h⟩
      rw [routingControlRead_log]
      exact ⟨[Call.DescribeRoutingControl { RoutingControlArn := some dr.id }], by simp⟩

/-- C7, as amended, at a control panel and a routing control that were read before,
with an update call that is throttled: Update returns an error and the resource
data is untouched. -/
theorem update_request_is_rename_by_arn_attribute_witness :
    ((renameFailsScript.client.1.UpdateControlPanel []
          { ControlPanelArn := some "arn:aws:panel/1"
            ControlPanelName := some "panel-old" }).2.isSome = true ∧
      (resourceAwsRoute53RecoveryControlConfigControlPanelUpdate panelStale
          renameFailsScript.client []).err.isError = true ∧
      (resourceAwsRoute53RecoveryControlConfigControlPanelUpdate panelStale
          renameFailsScript.client []).d = panelStale ∧
      (resourceAwsRoute53RecoveryControlConfigControlPanelUpdate panelStale
          renameFailsScript.client []).log =
        [Call.UpdateControlPanel
          { ControlPanelArn := some "arn:aws:panel/1"
            ControlPanelName := some "panel-old" }]) ∧
    ((renameFailsScript.client.1.UpdateRoutingControl []
          { RoutingControlArn := some "arn:aws:routing/1"
            RoutingControlName := some "routing-old" }).2.isSome = true ∧
      (resourceAwsRoute53RecoveryControlConfigRoutingControlUpdate routingStale
          renameFailsScript.client []).err.isError = true ∧
      (resourceAwsRoute53RecoveryControlConfigRoutingControlUpdate routingStale
          renameFailsScript.client []).d = routingStale ∧
      (resourceAwsRoute53RecoveryControlConfigRoutingControlUpdate routingStale
          renameFailsScript.client []).log =
        [Call.UpdateRoutingControl
          { RoutingControlArn := some "arn:aws:routing/1"
            RoutingControlName := some "routing-old" }]) :=
  ⟨⟨rfl,
    (update_request_is_rename_by_arn_attribute renameFailsScript.client [] panelStale
      routingStale).1.2 rfl⟩,
   ⟨rfl,
    (update_request_is_rename_by_arn_attribute renameFailsScript.client [] panelStale
      routingStale).2.2 rfl⟩⟩

/-- C7, as stated, fails for both resource kinds: the update request is not
addressed by the stored identifier in every local state.  In the state Create
leaves when its waiter fails, the identifier holds the ARN while the ARN attribute
is still empty, and the request carries the empty attribute. -/
theorem update_request_not_addressed_by_identifier :
    (¬ ∀ (meta : AWSClient) (log : List Call) (d : ControlPanelResourceData),
        ∃ rest : List Call,
          (resourceAwsRoute53RecoveryControlConfigControlPanelUpdate d meta log).log =
            log ++ Call.UpdateControlPanel
              { ControlPanelArn := some d.id
                ControlPanelName := some d.name } :: rest) ∧
    (¬ ∀ (meta : AWSClient) (log : List Call) (d : RoutingControlResourceData),
        ∃ rest : List Call,
          (resourceAwsRoute53RecoveryControlConfigRoutingControlUpdate d meta log).log =
            log ++ Call.UpdateRoutingControl
              { RoutingControlArn := some d.id
                RoutingControlName := some d.name } :: rest) := by
  refine ⟨?_, ?_⟩
  · intro h
    obtain ⟨rest, hrest⟩ := h ({ updateControlPanel := some (Err.other "throttled") } : Script).client
      [] { panelPlanned with id := "arn:aws:panel/1" }
    have h₂ :
        (resourceAwsRoute53RecoveryControlConfigControlPanelUpdate
          { panelPlanned with id := "arn:aws:panel/1" }
          ({ updateControlPanel := some (Err.other "throttled") } : Script).client []).log =
        [Call.UpdateControlPanel
          { ControlPanelArn := some "", ControlPanelName := some "panel-a" }] := rfl
    rw [h₂] at hrest
    simp at hrest
  · intro h
    obtain ⟨rest, hrest⟩ := h ({ updateRoutingControl := some (Err.other "throttled") } : Script).client
      [] { routingPlanned with id := "arn:aws:routing/1" }
    have h₂ :
        (resourceAwsRoute53RecoveryControlConfigRoutingControlUpdate
          { routingPlanned with id := "arn:aws:routing/1" }
          ({ updateRoutingControl := some (Err.other "throttled") } : Script).client []).log =
        [Call.UpdateRoutingControl
          { RoutingControlArn := some "", RoutingControlName := some "routing-a" }] := rfl
    rw [h₂] at hrest
    simp at hrest

/-! ## Delete -/

/-- An error with the ResourceNotFoundException code passes the not-found test of
the delete call, whatever its message. -/
theorem isAWSErr_notFound (message : String) :
    isAWSErr (Err.awsErr "ResourceNotFoundException" message)
      ErrCodeResourceNotFoundException "" = true := by
  simp [isAWSErr, ErrCodeResourceNotFoundException]

/-- Every error other than one with the ResourceNotFoundException code fails the
not-found test of the delete call. -/
theorem isAWSErr_other (e : Err)
    (h : ∀ message : String, e ≠ Err.awsErr "ResourceNotFoundException" message) :
    isAWSErr e ErrCodeResourceNotFoundException "" = false := by
  cases e with
  | awsErr c m =>
    have hc : c ≠ "ResourceNotFoundException" := fun hc => h m (by rw [hc])
    simp [isAWSErr, ErrCodeResourceNotFoundException, hc]
  | notFoundError m => rfl
  | other m => rfl

/-- Every error other than a NotFoundError fails the not-found test of the
deletion wait. -/
theorem isResourceNotFoundError_other (e : Err)
    (h : ∀ message : String, e ≠ Err.notFoundError message) :
    isResourceNotFoundError e = false := by
  cases e with
  | awsErr c m => rfl
  | notFoundError m => exact absurd rfl (h m)
  | other m => rfl

/-- C2: for both resource kinds and every stored identifier.  When the delete call
answers with an error of code ResourceNotFoundException, Delete returns nil and the
delete call is the only call made (the deletion waiter is not invoked).  When the
delete call succeeds and the deletion waiter, called with the identifier, answers
with a not-found error, Delete returns nil.  Every other error of the delete call,
and every other error of the waiter after a successful delete call, makes Delete
return an error. -/
theorem delete_tolerates_not_found_only
    (waiter : Waiter) (meta : AWSClient) (log : List Call)
    (dp : ControlPanelResourceData) (dr : RoutingControlResourceData) :
    ((∀ message : String,
        (meta.route53recoverycontrolconfigconn.DeleteControlPanel log
            { ControlPanelArn := some dp.id }).2 =
          some (Err.awsErr "ResourceNotFoundException" message) →
        resourceAwsRoute53RecoveryControlConfigControlPanelDelete waiter dp meta log =
          { err := Result.nil
            d := dp
            log := log ++ [Call.DeleteControlPanel { ControlPanelArn := some dp.id }] }) ∧
      (∀ message : String,
        (meta.route53recoverycontrolconfigconn.DeleteControlPanel log
            { ControlPanelArn := some dp.id }).2 = none →
        waiter.Route53RecoveryControlConfigControlPanelDeleted
            meta.route53recoverycontrolconfigconn
            (log ++ [Call.DeleteControlPanel { ControlPanelArn := some dp.id }]) dp.id =
          some (Err.notFoundError message) →
        resourceAwsRoute53RecoveryControlConfigControlPanelDelete waiter dp meta log =
          { err := Result.nil
            d := dp
            log := log ++
              [Call.DeleteControlPanel { ControlPanelArn := some dp.id },
               Call.ControlPanelDeleted dp.id] }) ∧
      (∀ e : Err,
        (meta.route53recoverycontrolconfigconn.DeleteControlPanel log
            { ControlPanelArn := some dp.id }).2 = some e →
        (∀ message : String, e ≠ Err.awsErr "ResourceNotFoundException" message) →
        (resourceAwsRoute53RecoveryControlConfigControlPanelDelete waiter dp meta log).err.isError
          = true) ∧
      (∀ e : Err,
        (meta.route53recoverycontrolconfigconn.DeleteControlPanel log
            { ControlPanelArn := some dp.id }).2 = none →
        waiter.Route53RecoveryControlConfigControlPanelDeleted
            meta.route53recoverycontrolconfigconn
            (log ++ [Call.DeleteControlPanel { ControlPanelArn := some dp.id }]) dp.id = some e →
        (∀ message : String, e ≠ Err.notFoundError message) →
        (resourceAwsRoute53RecoveryControlConfigControlPanelDelete waiter dp meta log).err.isError
          = true)) ∧
    ((∀ message : String,
        (meta.route53recoverycontrolconfigconn.DeleteRoutingControl log
            { RoutingControlArn := some dr.id }).2 =
          some (Err.awsErr "ResourceNotFoundException" message) →
        resourceAwsRoute53RecoveryControlConfigRoutingControlDelete waiter dr meta log =
          { err := Result.nil
            d := dr
            log := log ++ [Call.DeleteRoutingControl { RoutingControlArn := some dr.id }] }) ∧
      (∀ message : String,
        (meta.route53recoverycontrolconfigconn.DeleteRoutingControl log
            { RoutingControlArn := some dr.id }).2 = none →
        waiter.Route53RecoveryControlConfigRoutingControlDeleted
            meta.route53recoverycontrolconfigconn
            (log ++ [Call.DeleteRoutingControl { RoutingControlArn := some dr.id }]) dr.id =
          some (Err.notFoundError message) →
        resourceAwsRoute53RecoveryControlConfigRoutingControlDelete waiter dr meta log =
          { err := Result.nil
            d := dr
            log := log ++
              [Call.DeleteRoutingControl { RoutingControlArn := some dr.id },
               Call.RoutingControlDeleted dr.id] }) ∧
      (∀ e : Err,
        (meta.route53recoverycontrolconfigconn.DeleteRoutingControl log
            { RoutingControlArn := some dr.id }).2 = some e →
        (∀ message : String, e ≠ Err.awsErr "ResourceNotFoundException" message) →
        (resourceAwsRoute53RecoveryControlConfigRoutingControlDelete waiter dr meta log).err.isError
          = true) ∧
      (∀ e : Err,
        (meta.route53recoverycontrolconfigconn.DeleteRoutingControl log
            { RoutingControlArn := some dr.id }).2 = none →
        waiter.Route53RecoveryControlConfigRoutingControlDeleted
            meta.route53recoverycontrolconfigconn
            (log ++ [Call.DeleteRoutingControl { RoutingControlArn := some dr.id }]) dr.id = some e →
        (∀ message : String, e ≠ Err.notFoundError message) →
        (resourceAwsRoute53RecoveryControlConfigRoutingControlDelete waiter dr meta log).err.isError
          = true)) := by
  refine ⟨?_, ?_⟩
  · rcases hr : meta.route53recoverycontrolconfigconn.DeleteControlPanel log
        { ControlPanelArn := some dp.id } with ⟨out, e⟩
    simp only [resourceAwsRoute53RecoveryControlConfigControlPanelDelete, aws_String,
      ControlPanelResourceData.Id, hr]
    refine ⟨?_, ?_, ?_, ?_⟩
    · intro message he
      subst he
      simp [isAWSErr_notFound]
    · intro message he hw
      subst he
      simp [hw, isResourceNotFoundError]
    · intro e₂ he hne
      subst he
      simp [isAWSErr_other e₂ hne, Result.isError]
    · intro e₂ he hw hne
      subst he
      simp [hw, isResourceNotFoundError_other e₂ hne, Result.isError]
  · rcases hr : meta.route53recoverycontrolconfigconn.DeleteRoutingControl log
        { RoutingControlArn := some dr.id } with ⟨out, e⟩
    simp only [resourceAwsRoute53RecoveryControlConfigRoutingControlDelete, aws_String,
      RoutingControlResourceData.Id, hr]
    refine ⟨?_, ?_, ?_, ?_⟩
    · intro message he
      subst he
      simp [isAWSErr_notFound]
    · intro message he hw
      subst he
      simp [hw, isResourceNotFoundError]
    · intro e₂ he hne
      subst he
      simp [isAWSErr_other e₂ hne, Result.isError]
    · intro e₂ he hw hne
      subst he
      simp [hw, isResourceNotFoundError_other e₂ hne, Result.isError]

/-- C2 at a control panel and a routing control in state, against four services:
one that reports the resource already absent, one whose deletion waiter reports not
found, one that refuses the delete call, and one whose deletion waiter times out. -/
theorem delete_tolerates_not_found_only_witness :
    (((alreadyGoneScript.client.1.DeleteControlPanel []
            { ControlPanelArn := some "arn:aws:panel/1" }).2 =
          some (Err.awsErr "ResourceNotFoundException" "resource does not exist") ∧
        resourceAwsRoute53RecoveryControlConfigControlPanelDelete alreadyGoneScript.waiter panelStale
            alreadyGoneScript.client [] =
          { err := Result.nil
            d := panelStale
            log := [Call.DeleteControlPanel { ControlPanelArn := some "arn:aws:panel/1" }] }) ∧
      ((goneDuringWaitScript.client.1.DeleteControlPanel []
            { ControlPanelArn := some "arn:aws:panel/1" }).2 = none ∧
        goneDuringWaitScript.waiter.Route53RecoveryControlConfigControlPanelDeleted
            goneDuringWaitScript.client.1
            [Call.DeleteControlPanel { ControlPanelArn := some "arn:aws:panel/1" }] "arn:aws:panel/1" =
          some (Err.notFoundError "resource is gone") ∧
        resourceAwsRoute53RecoveryControlConfigControlPanelDelete goneDuringWaitScript.waiter panelStale
            goneDuringWaitScript.client [] =
          { err := Result.nil
            d := panelStale
            log :=
              [Call.DeleteControlPanel { ControlPanelArn := some "arn:aws:panel/1" },
               Call.ControlPanelDeleted "arn:aws:panel/1"] }) ∧
      ((deleteDeniedScript.client.1.DeleteControlPanel []
            { ControlPanelArn := some "arn:aws:panel/1" }).2 =
          some (Err.awsErr "AccessDeniedException" "denied") ∧
        (∀ message : String,
          Err.awsErr "AccessDeniedException" "denied" ≠
            Err.awsErr "ResourceNotFoundException" message) ∧
        (resourceAwsRoute53RecoveryControlConfigControlPanelDelete deleteDeniedScript.waiter panelStale
            deleteDeniedScript.client []).err.isError = true) ∧
      ((deleteWaitTimeoutScript.client.1.DeleteControlPanel []
            { ControlPanelArn := some "arn:aws:panel/1" }).2 = none ∧
        deleteWaitTimeoutScript.waiter.Route53RecoveryControlConfigControlPanelDeleted
            deleteWaitTimeoutScript.client.1
            [Call.DeleteControlPanel { ControlPanelArn := some "arn:aws:panel/1" }] "arn:aws:panel/1" =
          some (Err.other "timeout") ∧
        (∀ message : String, Err.other "timeout" ≠ Err.notFoundError message) ∧
        (resourceAwsRoute53RecoveryControlConfigControlPanelDelete deleteWaitTimeoutScript.waiter panelStale
            deleteWaitTimeoutScript.client []).err.isError = true)) ∧
    (((alreadyGoneScript.client.1.DeleteRoutingControl []
            { RoutingControlArn := some "arn:aws:routing/1" }).2 =
          some (Err.awsErr "ResourceNotFoundException" "resource does not exist") ∧
        resourceAwsRoute53RecoveryControlConfigRoutingControlDelete alreadyGoneScript.waiter routingStale
            alreadyGoneScript.client [] =
          { err := Result.nil
            d := routingStale
            log := [Call.DeleteRoutingControl { RoutingControlArn := some "arn:aws:routing/1" }] }) ∧
      ((goneDuringWaitScript.client.1.DeleteRoutingControl []
            { RoutingControlArn := some "arn:aws:routing/1" }).2 = none ∧
        goneDuringWaitScript.waiter.Route53RecoveryControlConfigRoutingControlDeleted
            goneDuringWaitScript.client.1
            [Call.DeleteRoutingControl { RoutingControlArn := some "arn:aws:routing/1" }] "arn:aws:routing/1" =
          some (Err.notFoundError "resource is gone") ∧
        resourceAwsRoute53RecoveryControlConfigRoutingControlDelete goneDuringWaitScript.waiter routingStale
            goneDuringWaitScript.client [] =
          { err := Result.nil
            d := routingStale
            log :=
              [Call.DeleteRoutingControl { RoutingControlArn := some "arn:aws:routing/1" },
               Call.RoutingControlDeleted "arn:aws:routing/1"] }) ∧
      ((deleteDeniedScript.client.1.DeleteRoutingControl []
            { RoutingControlArn := some "arn:aws:routing/1" }).2 =
          some (Err.awsErr "AccessDeniedException" "denied") ∧
        (∀ message : String,
          Err.awsErr "AccessDeniedException" "denied" ≠
            Err.awsErr "ResourceNotFoundException" message) ∧
        (resourceAwsRoute53RecoveryControlConfigRoutingControlDelete deleteDeniedScript.waiter routingStale
            deleteDeniedScript.client []).err.isError = true) ∧
      ((deleteWaitTimeoutScript.client.1.DeleteRoutingControl []
            { RoutingControlArn := some "arn:aws:routing/1" }).2 = none ∧
        deleteWaitTimeoutScript.waiter.Route53RecoveryControlConfigRoutingControlDeleted
            deleteWaitTimeoutScript.client.1
            [Call.DeleteRoutingControl { RoutingControlArn := some "arn:aws:routing/1" }] "arn:aws:routing/1" =
          some (Err.other "timeout") ∧
        (∀ message : String, Err.other "timeout" ≠ Err.notFoundError message) ∧
        (resourceAwsRoute53RecoveryControlConfigRoutingControlDelete deleteWaitTimeoutScript.waiter routingStale
            deleteWaitTimeoutScript.client []).err.isError = true)) :=
  ⟨⟨⟨rfl, (delete_tolerates_not_found_only alreadyGoneScript.waiter alreadyGoneScript.client []
        panelStale routingStale).1.1 "resource does not exist" rfl⟩,
     ⟨rfl, rfl, (delete_tolerates_not_found_only goneDuringWaitScript.waiter goneDuringWaitScript.client []
        panelStale routingStale).1.2.1 "resource is gone" rfl rfl⟩,
     ⟨rfl, fun _ h => by simp at h,
      (delete_tolerates_not_found_only deleteDeniedScript.waiter deleteDeniedScript.client []
        panelStale routingStale).1.2.2.1 (Err.awsErr "AccessDeniedException" "denied") rfl (fun _ h => by simp at h)⟩,
     ⟨rfl, rfl, fun _ h => by simp at h,
      (delete_tolerates_not_found_only deleteWaitTimeoutScript.waiter deleteWaitTimeoutScript.client []
        panelStale routingStale).1.2.2.2 (Err.other "timeout") rfl rfl (fun _ h => by simp at h)⟩⟩,
   ⟨⟨rfl, (delete_tolerates_not_found_only alreadyGoneScript.waiter alreadyGoneScript.client []
        panelStale routingStale).2.1 "resource does not exist" rfl⟩,
     ⟨rfl, rfl, (delete_tolerates_not_found_only goneDuringWaitScript.waiter goneDuringWaitScript.client []
        panelStale routingStale).2.2.1 "resource is gone" rfl rfl⟩,
     ⟨rfl, fun _ h => by simp at h,
      (delete_tolerates_not_found_only deleteDeniedScript.waiter deleteDeniedScript.client []
        panelStale routingStale).2.2.2.1 (Err.awsErr "AccessDeniedException" "denied") rfl (fun _ h => by simp at h)⟩,
     ⟨rfl, rfl, fun _ h => by simp at h,
      (delete_tolerates_not_found_only deleteWaitTimeoutScript.waiter deleteWaitTimeoutScript.client []
        panelStale routingStale).2.2.2.2 (Err.other "timeout") rfl rfl (fun _ h => by simp at h)⟩⟩⟩

end Aws
